import Mathlib

/-!
Verification development for the zlg-candevice library: a shallow embedding of
the CAN / CAN-FD frame codec, the driver wrapper, and the device session of
`CanfdWifi100uTcp`, together with theorems settling the specification claims.
JavaScript 32-bit signed bitwise semantics are modelled explicitly on `Int`.
-/

namespace ZlgCan

/-! ### JavaScript numeric semantics

JS bitwise operators convert operands with `ToUint32`/`ToInt32` and return a
signed 32-bit result.  We model JS numbers holding integer values as `Int`. -/

/-- The `ToUint32` conversion of ECMAScript applied to an integer value. -/
def toUint32 (n : Int) : Nat := (n % (4294967296 : Int)).toNat

/-- The `ToInt32` conversion of ECMAScript applied to an integer value. -/
def toInt32 (n : Int) : Int :=
  let m := n % (4294967296 : Int)
  if m < 2147483648 then m else m - 4294967296

/-- JS `a | b` on integer-valued numbers. -/
def jsOr (a b : Int) : Int := toInt32 (toUint32 a ||| toUint32 b)

/-- JS `a & b` on integer-valued numbers. -/
def jsAnd (a b : Int) : Int := toInt32 (toUint32 a &&& toUint32 b)

/-- JS truthiness of an optional boolean field (`undefined` is falsy). -/
def jsTruthy (o : Option Bool) : Bool := o.getD false

theorem toUint32_ofNat (m : Nat) (h : m < 4294967296) : toUint32 (m : Int) = m := by
  unfold toUint32
  rw [Int.emod_eq_of_lt (by positivity) (by exact_mod_cast h)]
  simp

theorem toUint32_toInt32_ofNat (m : Nat) (h : m < 4294967296) :
    toUint32 (toInt32 (m : Int)) = m := by
  unfold toInt32
  rw [Int.emod_eq_of_lt (by positivity) (by exact_mod_cast h)]
  by_cases h31 : (m : Int) < 2147483648
  · simpa [h31] using toUint32_ofNat m h
  · simp only [h31, if_neg, ite_false]
    unfold toUint32
    have : ((m : Int) - 4294967296) % 4294967296 = (m : Int) % 4294967296 := by omega
    rw [this, Int.emod_eq_of_lt (by positivity) (by exact_mod_cast h)]
    simp

theorem toInt32_eq_zero_iff (m : Nat) (h : m < 4294967296) :
    toInt32 (m : Int) = 0 ↔ m = 0 := by
  unfold toInt32
  rw [Int.emod_eq_of_lt (by positivity) (by exact_mod_cast h)]
  by_cases h31 : (m : Int) < 2147483648
  · simp only [h31, if_true]
    omega
  · simp only [h31, if_false]
    omega

theorem toUint32_jsOr_ofNat (a b : Nat) (ha : a < 4294967296) (hb : b < 4294967296) :
    toUint32 (jsOr (a : Int) (b : Int)) = a ||| b := by
  unfold jsOr
  rw [toUint32_ofNat a ha, toUint32_ofNat b hb]
  exact toUint32_toInt32_ofNat _ (Nat.or_lt_two_pow (n := 32) ha hb)

theorem jsAnd_ofNat_eq (a b : Nat) (ha : a < 4294967296) (hb : b < 4294967296) :
    jsAnd (a : Int) (b : Int) = toInt32 (a &&& b) := by
  unfold jsAnd
  rw [toUint32_ofNat a ha, toUint32_ofNat b hb]

theorem jsAnd_ofNat_ne_zero_iff (a b : Nat) (ha : a < 4294967296) (hb : b < 4294967296) :
    (jsAnd (a : Int) (b : Int) ≠ 0) ↔ a &&& b ≠ 0 := by
  rw [jsAnd_ofNat_eq a b ha hb]
  have hlt : a &&& b < 4294967296 := Nat.lt_of_le_of_lt Nat.and_le_right hb
  exact not_congr (toInt32_eq_zero_iff _ hlt)

theorem jsAnd_ofNat_small (a b : Nat) (ha : a < 4294967296) (hb : b < 2147483648) :
    jsAnd (a : Int) (b : Int) = ((a &&& b : Nat) : Int) := by
  rw [jsAnd_ofNat_eq a b ha (by omega)]
  unfold toInt32
  have hlt : a &&& b < 2147483648 := Nat.lt_of_le_of_lt Nat.and_le_right hb
  rw [Int.emod_eq_of_lt (by positivity) (by exact_mod_cast Nat.lt_trans hlt (by norm_num))]
  simp [show (((a &&& b : Nat) : Int) < 2147483648) by exact_mod_cast hlt]

/-! ### Constants

The file `src/driver/constants.ts` is not part of the provided sources; its
values below are modelled from the spec and pinned by the repository's unit
tests (`test/unit/types.spec.ts`, `test/unit/errors.spec.ts`) and by the
inline comments of the device layer. -/

/-- Modelled from the spec: `CAN_FLAG.EFF_FLAG` (extended-frame bit 31) from the
missing `src/driver/constants.ts`; asserted `0x80000000` by the unit tests. -/
def EFF_FLAG : Nat := 0x80000000

/-- Modelled from the spec: `CAN_FLAG.RTR_FLAG` (remote-frame bit 30); asserted
`0x40000000` by the unit tests. -/
def RTR_FLAG : Nat := 0x40000000

/-- Modelled from the spec: `CAN_FLAG.SFF_MASK` (11-bit id mask); asserted
`0x7FF` by the unit tests. -/
def SFF_MASK : Nat := 0x7FF

/-- Modelled from the spec: `CAN_FLAG.EFF_MASK` (29-bit id mask); asserted
`0x1FFFFFFF` by the unit tests. -/
def EFF_MASK : Nat := 0x1FFFFFFF

/-- Modelled from the spec: `CANFD_FLAG.BRS` bit; asserted `0x01` by the unit
tests. -/
def CANFD_BRS : Nat := 0x01

/-- Modelled from the spec: `CANFD_FLAG.ESI` bit; asserted `0x02` by the unit
tests. -/
def CANFD_ESI : Nat := 0x02

/-- Modelled from the spec: `TX_FLAG.ECHO_FLAG`; the device layer's comments
state `0x20 回显标志`. -/
def TX_ECHO_FLAG : Nat := 0x20

/-- Modelled from the spec: `TX_FLAG.DELAY_SEND_FLAG`; the device layer's
comments state `0x80 队列发送标志`. -/
def TX_DELAY_SEND_FLAG : Nat := 0x80

/-- Modelled from the spec: invalid device-handle sentinel (a null pointer). -/
def INVALID_DEVICE_HANDLE : Nat := 0

/-- Modelled from the spec: invalid channel-handle sentinel (a null pointer). -/
def INVALID_CHANNEL_HANDLE : Nat := 0

/-- Modelled from the spec: `ZCAN_STATUS.OK` success status of the native
library calls. -/
def ZCAN_STATUS_OK : Nat := 1

/-- `ZCAN_DATA_TYPE.CAN` (driver doc comment: `0: CAN`). -/
def ZCAN_DATA_TYPE_CAN : Nat := 0

/-- `ZCAN_DATA_TYPE.CANFD` (driver doc comment: `1: CANFD`). -/
def ZCAN_DATA_TYPE_CANFD : Nat := 1

/-- `ZCAN_DATA_TYPE.ALL_DATA` (driver doc comment: `2: ALL`). -/
def ZCAN_DATA_TYPE_ALL_DATA : Nat := 2

/-- `ZCAN_TRANSMIT_TYPE.NORMAL`. -/
def ZCAN_TRANSMIT_TYPE_NORMAL : Nat := 0

/-- Modelled from the spec: `TCP_WORK_MODE.TCP_CLIENT` marker value. -/
def TCP_WORK_MODE_TCP_CLIENT : Nat := 0

/-- Modelled from the spec: the device-type code passed to `openDevice`
(`ZCAN_DEVICE_TYPE.ZCAN_CANFDNET_200U_TCP`); its numeric value is immaterial
to every claim. -/
def DEVICE_TYPE_CANFDNET_200U_TCP : Nat := 48

/-! ### Wire structures (driver `types.ts`) -/

/-- The `can_frame` structure.  `can_id` is the JS number stored in the field
(possibly negative after signed bitwise arithmetic); it is converted to a
`uint32` when serialised. -/
structure CanFrameW where
  can_id : Int
  can_dlc : Nat
  __pad : Nat
  __res0 : Nat
  __res1 : Nat
  data : List Nat
deriving DecidableEq, Repr

/-- The `canfd_frame` structure. -/
structure CanfdFrameW where
  can_id : Int
  len : Nat
  flags : Nat
  __res0 : Nat
  __res1 : Nat
  data : List Nat
deriving DecidableEq, Repr

/-- `ZCAN_Transmit_Data`. -/
structure ZcanTransmitDataW where
  frame : CanFrameW
  transmit_type : Nat
deriving DecidableEq, Repr

/-- `ZCAN_Receive_Data`. -/
structure ZcanReceiveDataW where
  frame : CanFrameW
  timestamp : Nat
deriving DecidableEq, Repr

/-- `ZCAN_TransmitFD_Data`. -/
structure ZcanTransmitFdDataW where
  frame : CanfdFrameW
  transmit_type : Nat
deriving DecidableEq, Repr

/-- `ZCAN_ReceiveFD_Data`. -/
structure ZcanReceiveFdDataW where
  frame : CanfdFrameW
  timestamp : Nat
deriving DecidableEq, Repr

/-! ### Device-layer messages

`CanMessage` / `CanFdMessage` are JS objects with optional fields; the TS union
`CanMessage | CanFdMessage` is discriminated structurally by the presence of
the `brs`/`esi` keys, so a single record with optional fields models it. -/

/-- A `CanMessage` / `CanFdMessage` object.  `Option` models field presence;
`brs`/`esi` are present exactly on FD messages. -/
structure CanMsgW where
  id : Nat
  data : List Nat
  isExtended : Option Bool := none
  isRemote : Option Bool := none
  timestamp : Option Nat := none
  brs : Option Bool := none
  esi : Option Bool := none
deriving DecidableEq, Repr

/-- `isCanFdMessage`: structural discrimination via presence of `brs`/`esi`. -/
def isCanFdMessage (m : CanMsgW) : Bool := m.brs.isSome || m.esi.isSome

/-- `MessageType` (`'can' | 'canfd' | 'all'`). -/
inductive MessageType where
  | can | canfd | all
deriving DecidableEq, Repr

/-- `AutoSendConfig`. -/
structure AutoSendConfigW where
  index : Nat
  enable : Bool
  interval : Nat
  message : CanMsgW
deriving DecidableEq, Repr

/-- `QueueSendItem`. -/
structure QueueSendItemW where
  message : CanMsgW
  delay : Nat
deriving DecidableEq, Repr

/-! ### Frame codec (device layer helpers) -/

/-- `toZcanTransmitData`: encode a classic message into a transmit envelope.
The id computation follows the JS source: `canId |= CAN_FLAG.EFF_FLAG` etc.,
performed in signed 32-bit arithmetic. -/
def toZcanTransmitData (msg : CanMsgW)
    (transmitType : Nat := ZCAN_TRANSMIT_TYPE_NORMAL) (echo : Bool := false) :
    ZcanTransmitDataW :=
  let canId : Int := if jsTruthy msg.isExtended then jsOr msg.id EFF_FLAG else (msg.id : Int)
  let canId : Int := if jsTruthy msg.isRemote then jsOr canId RTR_FLAG else canId
  { frame :=
      { can_id := canId
        can_dlc := msg.data.length
        __pad := if echo then TX_ECHO_FLAG else 0
        __res0 := 0
        __res1 := 0
        data := msg.data }
    transmit_type := transmitType }

/-- `toZcanTransmitFdData`: encode an FD message into a transmit envelope. -/
def toZcanTransmitFdData (msg : CanMsgW)
    (transmitType : Nat := ZCAN_TRANSMIT_TYPE_NORMAL) (echo : Bool := false) :
    ZcanTransmitFdDataW :=
  let canId : Int := if jsTruthy msg.isExtended then jsOr msg.id EFF_FLAG else (msg.id : Int)
  let canId : Int := if jsTruthy msg.isRemote then jsOr canId RTR_FLAG else canId
  let flags : Nat := 0
  let flags : Nat := if jsTruthy msg.brs then flags ||| CANFD_BRS else flags
  let flags : Nat := if jsTruthy msg.esi then flags ||| CANFD_ESI else flags
  let flags : Nat := if echo then flags ||| TX_ECHO_FLAG else flags
  { frame :=
      { can_id := canId
        len := msg.data.length
        flags := flags
        __res0 := 0
        __res1 := 0
        data := msg.data }
    transmit_type := transmitType }

/-- `fromZcanReceiveData`: decode a classic receive envelope. -/
def fromZcanReceiveData (d : ZcanReceiveDataW) : CanMsgW :=
  let canId := d.frame.can_id
  let isExtended : Bool := jsAnd canId EFF_FLAG != 0
  let isRemote : Bool := jsAnd canId RTR_FLAG != 0
  let id := (jsAnd canId (if isExtended then EFF_MASK else SFF_MASK)).toNat
  { id := id
    data := d.frame.data.take d.frame.can_dlc
    isExtended := some isExtended
    isRemote := some isRemote
    timestamp := some d.timestamp }

/-- `fromZcanReceiveFdData`: decode an FD receive envelope. -/
def fromZcanReceiveFdData (d : ZcanReceiveFdDataW) : CanMsgW :=
  let canId := d.frame.can_id
  let isExtended : Bool := jsAnd canId EFF_FLAG != 0
  let isRemote : Bool := jsAnd canId RTR_FLAG != 0
  let id := (jsAnd canId (if isExtended then EFF_MASK else SFF_MASK)).toNat
  let flags := d.frame.flags
  { id := id
    data := d.frame.data.take d.frame.len
    isExtended := some isExtended
    isRemote := some isRemote
    timestamp := some d.timestamp
    brs := some (flags &&& CANFD_BRS != 0)
    esi := some (flags &&& CANFD_ESI != 0) }

/-! ### Errors -/

/-- Runtime errors: `ZlgCanError(operation, errorCode?, message?)`, the plain
`Error` of `ensureInitialized`, and the `RangeError` raised by
`new Array(n)` for negative `n`. -/
inductive Err where
  | zlg (operation : String) (errorCode : Option Nat) (message : Option String)
  | plain (message : String)
  | rangeError
deriving DecidableEq, Repr

/-- The "device not open" error thrown by `ensureOpen`. -/
def notOpenErr : Err := .zlg "Device" none (some "设备未打开")

/-! ### Transport calls (native library surface) -/

/-- Values passed to `ZCAN_SetValue` (string, CAN auto-send object, FD
auto-send object are the shapes the session uses). -/
inductive SetVal where
  | s (v : String)
  | autoCan (enable index interval : Nat) (obj : ZcanTransmitDataW)
  | autoFd (enable index interval : Nat) (obj : ZcanTransmitFdDataW)
deriving DecidableEq, Repr

/-- One call into the native library (the transport). -/
inductive Call where
  | openDevice (deviceType deviceIndex : Nat)
  | closeDevice (handle : Nat)
  | initCAN (handle canIndex : Nat)
  | startCAN (channel : Nat)
  | clearBuffer (channel : Nat)
  | getReceiveNum (channel ty : Nat)
  | transmit (channel : Nat) (frames : List ZcanTransmitDataW)
  | transmitFD (channel : Nat) (frames : List ZcanTransmitFdDataW)
  | receive (channel maxCount : Nat) (timeout : Int)
  | receiveFD (channel maxCount : Nat) (timeout : Int)
  | setValue (handle : Nat) (path : String) (v : SetVal)
  | getValue (handle : Nat) (path : String)
deriving DecidableEq, Repr

/-- Recognise a `closeDevice` transport call. -/
def Call.isCloseDevice : Call → Bool
  | .closeDevice _ => true
  | _ => false

/-- Decoded result of `ZCAN_GetValue` as seen by the TS layer: a string, a
number, or a structured object. -/
inductive GVal where
  | str (s : String)
  | num (n : Nat)
  | obj (m : CanMsgW)
deriving DecidableEq, Repr

/-- Behaviour of the native library: return values of each entry point as a
deterministic function of the arguments the session varies. -/
structure LibOracle where
  openDeviceH : Nat
  initCANH : Nat
  startCANStatus : Nat
  closeDeviceStatus : Nat
  clearBufferStatus : Nat
  setValueStatus : String → Nat
  getValuePtr : String → Nat
  getValueDecoded : String → GVal
  getReceiveNumRet : Nat → Nat
  transmitRet : List ZcanTransmitDataW → Nat
  transmitFDRet : List ZcanTransmitFdDataW → Nat
  receiveRet : Nat → Int → List ZcanReceiveDataW
  receiveFDRet : Nat → Int → List ZcanReceiveFdDataW

/-! ### Driver wrappers (`ZlgCanDriver`)

Each wrapper returns the list of native calls it performed together with the
result (`Except` models thrown exceptions).  The `ini` flag models the
driver's `initialized` state checked by `ensureInitialized`. -/

/-- Error thrown by `ensureInitialized`. -/
def notInitializedErr : Err := .plain "Driver not initialized. Call initialize() first."

/-- `ZlgCanDriver.openDevice`. -/
def drvOpenDevice (ini : Bool) (o : LibOracle) (deviceType deviceIndex : Nat) :
    List Call × Except Err Nat :=
  if !ini then ([], .error notInitializedErr) else
  let h := o.openDeviceH
  ([.openDevice deviceType deviceIndex],
    if h = INVALID_DEVICE_HANDLE then .error (.zlg "ZCAN_OpenDevice" none none) else .ok h)

/-- `ZlgCanDriver.closeDevice`. -/
def drvCloseDevice (ini : Bool) (o : LibOracle) (handle : Nat) :
    List Call × Except Err Unit :=
  if !ini then ([], .error notInitializedErr) else
  ([.closeDevice handle],
    if o.closeDeviceStatus ≠ ZCAN_STATUS_OK then .error (.zlg "ZCAN_CloseDevice" none none)
    else .ok ())

/-- `ZlgCanDriver.initCAN`. -/
def drvInitCAN (ini : Bool) (o : LibOracle) (handle canIndex : Nat) :
    List Call × Except Err Nat :=
  if !ini then ([], .error notInitializedErr) else
  let h := o.initCANH
  ([.initCAN handle canIndex],
    if h = INVALID_CHANNEL_HANDLE then .error (.zlg "ZCAN_InitCAN" none none) else .ok h)

/-- `ZlgCanDriver.startCAN`. -/
def drvStartCAN (ini : Bool) (o : LibOracle) (channel : Nat) :
    List Call × Except Err Unit :=
  if !ini then ([], .error notInitializedErr) else
  ([.startCAN channel],
    if o.startCANStatus ≠ ZCAN_STATUS_OK then .error (.zlg "ZCAN_StartCAN" none none)
    else .ok ())

/-- `ZlgCanDriver.clearBuffer`. -/
def drvClearBuffer (ini : Bool) (o : LibOracle) (channel : Nat) :
    List Call × Except Err Unit :=
  if !ini then ([], .error notInitializedErr) else
  ([.clearBuffer channel],
    if o.clearBufferStatus ≠ ZCAN_STATUS_OK then .error (.zlg "ZCAN_ClearBuffer" none none)
    else .ok ())

/-- `ZlgCanDriver.getReceiveNum`. -/
def drvGetReceiveNum (ini : Bool) (o : LibOracle) (channel ty : Nat) :
    List Call × Except Err Nat :=
  if !ini then ([], .error notInitializedErr) else
  ([.getReceiveNum channel ty], .ok (o.getReceiveNumRet ty))

/-- `ZlgCanDriver.setValue`. -/
def drvSetValue (ini : Bool) (o : LibOracle) (handle : Nat) (path : String) (v : SetVal) :
    List Call × Except Err Unit :=
  if !ini then ([], .error notInitializedErr) else
  ([.setValue handle path v],
    if o.setValueStatus path ≠ ZCAN_STATUS_OK then .error (.zlg "ZCAN_SetValue" none none)
    else .ok ())

/-- `ZlgCanDriver.getValue`. -/
def drvGetValue (ini : Bool) (o : LibOracle) (handle : Nat) (path : String) :
    List Call × Except Err GVal :=
  if !ini then ([], .error notInitializedErr) else
  ([.getValue handle path],
    if o.getValuePtr path = 0 then .error (.zlg "ZCAN_GetValue" none none)
    else .ok (o.getValueDecoded path))

/-- Sequential fallible map modelling a `forEach` whose body may throw: stops
at the first error, before any later element is processed. -/
def mapExcept (f : α → Except Err β) : List α → Except Err (List β)
  | [] => .ok []
  | x :: xs =>
    match f x with
    | .error e => .error e
    | .ok y =>
      match mapExcept f xs with
      | .error e => .error e
      | .ok ys => .ok (y :: ys)

/-- The per-frame body of the `forEach` in `ZlgCanDriver.transmit`:
`Array.from(d).concat(new Array(8 - d.length).fill(0)).slice(0, 8)`.
`new Array(n)` throws `RangeError` when `n` is negative, i.e. when the payload
exceeds the frame capacity. -/
def padTo (cap : Nat) (data : List Nat) : Except Err (List Nat) :=
  if data.length ≤ cap then .ok ((data ++ List.replicate (cap - data.length) 0).take cap)
  else .error .rangeError

/-- Padding step for one classic transmit envelope. -/
def padClassicItem (d : ZcanTransmitDataW) : Except Err ZcanTransmitDataW :=
  (padTo 8 d.frame.data).map fun pd => { d with frame := { d.frame with data := pd } }

/-- Padding step for one FD transmit envelope. -/
def padFdItem (d : ZcanTransmitFdDataW) : Except Err ZcanTransmitFdDataW :=
  (padTo 64 d.frame.data).map fun pd => { d with frame := { d.frame with data := pd } }

/-- `ZlgCanDriver.transmit`: the `forEach` encodes (and pads) every frame into
the buffer before the single `ZCAN_Transmit` call; a `RangeError` thrown while
encoding aborts before any native call. -/
def drvTransmit (ini : Bool) (o : LibOracle) (channel : Nat)
    (data : List ZcanTransmitDataW) : List Call × Except Err Nat :=
  if !ini then ([], .error notInitializedErr) else
  match mapExcept padClassicItem data with
  | .error e => ([], .error e)
  | .ok frames => ([.transmit channel frames], .ok (o.transmitRet frames))

/-- `ZlgCanDriver.transmitFD`. -/
def drvTransmitFD (ini : Bool) (o : LibOracle) (channel : Nat)
    (data : List ZcanTransmitFdDataW) : List Call × Except Err Nat :=
  if !ini then ([], .error notInitializedErr) else
  match mapExcept padFdItem data with
  | .error e => ([], .error e)
  | .ok frames => ([.transmitFD channel frames], .ok (o.transmitFDRet frames))

/-- `ZlgCanDriver.receive`. -/
def drvReceive (ini : Bool) (o : LibOracle) (channel maxCount : Nat) (timeout : Int) :
    List Call × Except Err (List ZcanReceiveDataW) :=
  if !ini then ([], .error notInitializedErr) else
  ([.receive channel maxCount timeout], .ok (o.receiveRet maxCount timeout))

/-- `ZlgCanDriver.receiveFD`. -/
def drvReceiveFD (ini : Bool) (o : LibOracle) (channel maxCount : Nat) (timeout : Int) :
    List Call × Except Err (List ZcanReceiveFdDataW) :=
  if !ini then ([], .error notInitializedErr) else
  ([.receiveFD channel maxCount timeout], .ok (o.receiveFDRet maxCount timeout))

/-! ### Timestamp sort

`receive(type='all')` sorts with `Array.prototype.sort` and the comparator
`ta - tb` on the numeric timestamps; ECMAScript requires this sort to be
stable, so a stable insertion sort is an extensionally faithful model. -/

/-- Numeric timestamp used by the receive comparator (`a.timestamp || 0`). -/
def tsVal (m : CanMsgW) : Nat := m.timestamp.getD 0

/-- The comparison relation of the receive sort. -/
def tsLe (a b : CanMsgW) : Prop := tsVal a ≤ tsVal b

instance : DecidableRel tsLe := fun a b => inferInstanceAs (Decidable (tsVal a ≤ tsVal b))

/-- The stable timestamp sort performed by `receive(type='all')`. -/
def sortByTs (l : List CanMsgW) : List CanMsgW := List.insertionSort tsLe l

/-! ### Device session (`CanfdWifi100uTcp`) -/

/-- `CanfdWifi100uTcpConfig` (with the constructor's `deviceIndex` default). -/
structure SessionCfg where
  ip : String
  port : Nat
  deviceIndex : Nat := 0
  echo : Option Bool := none
deriving DecidableEq, Repr

/-- The mutable state of a `CanfdWifi100uTcp` instance, together with the
`initialized` flag of the driver singleton it uses. -/
structure SessionSt where
  cfg : SessionCfg
  deviceHandle : Nat := INVALID_DEVICE_HANDLE
  channelHandle : Nat := INVALID_CHANNEL_HANDLE
  driverInitialized : Bool := false
deriving DecidableEq, Repr

/-- `isOpen()`. -/
def isOpen (st : SessionSt) : Bool :=
  st.deviceHandle != INVALID_DEVICE_HANDLE && st.channelHandle != INVALID_CHANNEL_HANDLE

/-- `ensureOpen()` as an `Except` guard. -/
def ensureOpenE (st : SessionSt) : Except Err Unit :=
  if isOpen st then .ok () else .error notOpenErr

/-- The session's echo default: `this.config.echo !== false`. -/
def echoDefault (cfg : SessionCfg) : Bool := cfg.echo != some false

/-- `closeInternal()`: best-effort close (errors swallowed), then reset both
handles to their invalid sentinels. -/
def closeInternal (st : SessionSt) (o : LibOracle) : SessionSt × List Call :=
  if st.deviceHandle ≠ INVALID_DEVICE_HANDLE then
    let (tr, _) := drvCloseDevice st.driverInitialized o st.deviceHandle
    ({ st with deviceHandle := INVALID_DEVICE_HANDLE,
               channelHandle := INVALID_CHANNEL_HANDLE }, tr)
  else (st, [])

/-- The `(path, value)` pairs of the property-configuration sequence in
`open()`, in source order (the echo property is set only when the config does
not disable echo). -/
def openSetEntries (cfg : SessionCfg) : List (String × SetVal) :=
  [("0/ip", .s cfg.ip),
   ("0/work_port", .s (toString cfg.port)),
   ("0/work_mode", .s (toString TCP_WORK_MODE_TCP_CLIENT))] ++
  (if cfg.echo != some false then [("0/set_device_tx_echo", SetVal.s "1")] else []) ++
  [("0/canfd_exp", .s "1"),
   ("0/protocol", .s (toString ZCAN_DATA_TYPE_ALL_DATA))]

/-- Run a sequence of `driver.setValue` calls, stopping at the first failure. -/
def runSetValues (ini : Bool) (o : LibOracle) (h : Nat) :
    List (String × SetVal) → List Call × Except Err Unit
  | [] => ([], .ok ())
  | (p, v) :: rest =>
    match drvSetValue ini o h p v with
    | (tr, .error e) => (tr, .error e)
    | (tr, .ok _) =>
      let (tr2, r2) := runSetValues ini o h rest
      (tr ++ tr2, r2)

/-- `open()`: initialise the driver, open the device, configure it, init and
start the channel; on any failure after the device was opened, roll back with
`closeInternal` and re-raise the error. -/
def openModel (st : SessionSt) (o : LibOracle) : SessionSt × List Call × Except Err Unit :=
  if isOpen st then (st, [], .ok ()) else
  let st1 := { st with driverInitialized := true }
  match drvOpenDevice true o DEVICE_TYPE_CANFDNET_200U_TCP st.cfg.deviceIndex with
  | (tr, .error e) => (st1, tr, .error e)
  | (tr, .ok h) =>
    let st2 := { st1 with deviceHandle := h }
    match runSetValues true o h (openSetEntries st.cfg) with
    | (tr2, .error e) =>
      let (st', trc) := closeInternal st2 o
      (st', tr ++ tr2 ++ trc, .error e)
    | (tr2, .ok _) =>
      match drvInitCAN true o h 0 with
      | (tr3, .error e) =>
        let (st', trc) := closeInternal st2 o
        (st', tr ++ tr2 ++ tr3 ++ trc, .error e)
      | (tr3, .ok ch) =>
        let st3 := { st2 with channelHandle := ch }
        match drvStartCAN true o ch with
        | (tr4, .error e) =>
          let (st', trc) := closeInternal st3 o
          (st', tr ++ tr2 ++ tr3 ++ tr4 ++ trc, .error e)
        | (tr4, .ok _) => (st3, tr ++ tr2 ++ tr3 ++ tr4, .ok ())

/-- `close()`: no-op when closed, otherwise `closeInternal`. -/
def closeModel (st : SessionSt) (o : LibOracle) : SessionSt × List Call × Except Err Unit :=
  if !isOpen st then (st, [], .ok ())
  else
    let (st', tr) := closeInternal st o
    (st', tr, .ok ())

/-- `receive(maxCount, timeout, type)`. -/
def receiveModel (st : SessionSt) (o : LibOracle) (maxCount : Nat) (timeout : Int)
    (ty : MessageType) : List Call × Except Err (List CanMsgW) :=
  match ensureOpenE st with
  | .error e => ([], .error e)
  | .ok _ =>
    let ini := st.driverInitialized
    let ch := st.channelHandle
    let (tr1, r1) : List Call × Except Err (List CanMsgW) :=
      if ty = .can ∨ ty = .all then
        let (t, r) := drvReceive ini o ch maxCount timeout
        (t, r.map (List.map fromZcanReceiveData))
      else ([], .ok [])
    match r1 with
    | .error e => (tr1, .error e)
    | .ok canMsgs =>
      let (tr2, r2) : List Call × Except Err (List CanMsgW) :=
        if ty = .canfd ∨ ty = .all then
          let (t, r) := drvReceiveFD ini o ch maxCount timeout
          (t, r.map (List.map fromZcanReceiveFdData))
        else ([], .ok [])
      match r2 with
      | .error e => (tr1 ++ tr2, .error e)
      | .ok fdMsgs =>
        let result := canMsgs ++ fdMsgs
        (tr1 ++ tr2, .ok (if ty = .all then sortByTs result else result))

/-- `transmit(message)`. -/
def transmitModel (st : SessionSt) (o : LibOracle) (msg : CanMsgW) :
    List Call × Except Err Unit :=
  match ensureOpenE st with
  | .error e => ([], .error e)
  | .ok _ =>
    let echo := echoDefault st.cfg
    if isCanFdMessage msg then
      match drvTransmitFD st.driverInitialized o st.channelHandle
          [toZcanTransmitFdData msg ZCAN_TRANSMIT_TYPE_NORMAL echo] with
      | (tr, .error e) => (tr, .error e)
      | (tr, .ok sent) =>
        if sent ≠ 1 then (tr, .error (.zlg "transmit" none (some "发送 CANFD 报文失败")))
        else (tr, .ok ())
    else
      match drvTransmit st.driverInitialized o st.channelHandle
          [toZcanTransmitData msg ZCAN_TRANSMIT_TYPE_NORMAL echo] with
      | (tr, .error e) => (tr, .error e)
      | (tr, .ok sent) =>
        if sent ≠ 1 then (tr, .error (.zlg "transmit" none (some "发送 CAN 报文失败")))
        else (tr, .ok ())

/-- `transmitBatch(messages)`: split by kind (order-preserving), bulk-send each
non-empty partition, return the summed accepted counts. -/
def transmitBatchModel (st : SessionSt) (o : LibOracle) (msgs : List CanMsgW) :
    List Call × Except Err Nat :=
  match ensureOpenE st with
  | .error e => ([], .error e)
  | .ok _ =>
    let echo := echoDefault st.cfg
    let canMessages := msgs.filter fun m => !isCanFdMessage m
    let canfdMessages := msgs.filter fun m => isCanFdMessage m
    let (tr1, r1) :=
      if canMessages.length > 0 then
        drvTransmit st.driverInitialized o st.channelHandle
          (canMessages.map fun m => toZcanTransmitData m ZCAN_TRANSMIT_TYPE_NORMAL echo)
      else ([], .ok 0)
    match r1 with
    | .error e => (tr1, .error e)
    | .ok n1 =>
      let (tr2, r2) :=
        if canfdMessages.length > 0 then
          drvTransmitFD st.driverInitialized o st.channelHandle
            (canfdMessages.map fun m => toZcanTransmitFdData m ZCAN_TRANSMIT_TYPE_NORMAL echo)
        else ([], .ok 0)
      match r2 with
      | .error e => (tr1 ++ tr2, .error e)
      | .ok n2 => (tr1 ++ tr2, .ok (n1 + n2))

/-- `clearBuffer()`. -/
def clearBufferModel (st : SessionSt) (o : LibOracle) : List Call × Except Err Unit :=
  match ensureOpenE st with
  | .error e => ([], .error e)
  | .ok _ => drvClearBuffer st.driverInitialized o st.channelHandle

/-- `getBufferCount(type)`. -/
def getBufferCountModel (st : SessionSt) (o : LibOracle) (ty : MessageType) :
    List Call × Except Err Nat :=
  match ensureOpenE st with
  | .error e => ([], .error e)
  | .ok _ =>
    let (tr1, r1) :=
      if ty = .can ∨ ty = .all then
        drvGetReceiveNum st.driverInitialized o st.channelHandle ZCAN_DATA_TYPE_CAN
      else ([], .ok 0)
    match r1 with
    | .error e => (tr1, .error e)
    | .ok n1 =>
      let (tr2, r2) :=
        if ty = .canfd ∨ ty = .all then
          drvGetReceiveNum st.driverInitialized o st.channelHandle ZCAN_DATA_TYPE_CANFD
        else ([], .ok 0)
      match r2 with
      | .error e => (tr1 ++ tr2, .error e)
      | .ok n2 => (tr1 ++ tr2, .ok (n1 + n2))

/-- `addAutoSend(config)`. -/
def addAutoSendModel (st : SessionSt) (o : LibOracle) (c : AutoSendConfigW) :
    List Call × Except Err Unit :=
  match ensureOpenE st with
  | .error e => ([], .error e)
  | .ok _ =>
    let echo := echoDefault st.cfg
    let v : SetVal :=
      if isCanFdMessage c.message then
        .autoFd (if c.enable then 1 else 0) c.index c.interval
          (toZcanTransmitFdData c.message ZCAN_TRANSMIT_TYPE_NORMAL echo)
      else
        .autoCan (if c.enable then 1 else 0) c.index c.interval
          (toZcanTransmitData c.message ZCAN_TRANSMIT_TYPE_NORMAL echo)
    drvSetValue st.driverInitialized o st.deviceHandle "0/auto_send" v

/-- `applyAutoSend()`. -/
def applyAutoSendModel (st : SessionSt) (o : LibOracle) : List Call × Except Err Unit :=
  match ensureOpenE st with
  | .error e => ([], .error e)
  | .ok _ => drvSetValue st.driverInitialized o st.deviceHandle "0/apply_auto_send" (.s "0")

/-- `clearAutoSend()`. -/
def clearAutoSendModel (st : SessionSt) (o : LibOracle) : List Call × Except Err Unit :=
  match ensureOpenE st with
  | .error e => ([], .error e)
  | .ok _ => drvSetValue st.driverInitialized o st.deviceHandle "0/clear_auto_send" (.s "0")

/-- JS `parseInt(s, 10) || 0` on the stringified value. -/
def jsParseIntOr0 (s : String) : Int :=
  let t := s.dropWhile (·.isWhitespace)
  let (sign, t) : Int × String :=
    if t.startsWith "-" then (-1, t.drop 1)
    else if t.startsWith "+" then (1, t.drop 1) else (1, t)
  let digits := t.takeWhile (·.isDigit)
  if digits.isEmpty then 0
  else sign * (digits.foldl (fun acc c => acc * 10 + (c.toNat - '0'.toNat)) 0 : Nat)

/-- The conversion `typeof result === 'number' ? result : parseInt(String(result), 10) || 0`
applied to a decoded `getValue` result. -/
def gvalToCount : GVal → Int
  | .num n => n
  | .str s => jsParseIntOr0 s
  | .obj _ => 0

/-- `getAutoSendCount(isFd)`. -/
def getAutoSendCountModel (st : SessionSt) (o : LibOracle) (isFd : Bool) :
    List Call × Except Err Int :=
  match ensureOpenE st with
  | .error e => ([], .error e)
  | .ok _ =>
    let path := if isFd then "0/get_auto_send_canfd_count/1" else "0/get_auto_send_can_count/1"
    match drvGetValue st.driverInitialized o st.deviceHandle path with
    | (tr, .error e) => (tr, .error e)
    | (tr, .ok g) => (tr, .ok (gvalToCount g))

/-- `getAutoSendData(index, isFd)`: transport errors are swallowed and turned
into `null`; only object-shaped results are returned. -/
def getAutoSendDataModel (st : SessionSt) (o : LibOracle) (index : Nat) (isFd : Bool) :
    List Call × Except Err (Option CanMsgW) :=
  match ensureOpenE st with
  | .error e => ([], .error e)
  | .ok _ =>
    let path := (if isFd then "0/get_auto_send_canfd_data/" else "0/get_auto_send_can_data/")
      ++ toString index
    match drvGetValue st.driverInitialized o st.deviceHandle path with
    | (tr, .error _) => (tr, .ok none)
    | (tr, .ok (.obj m)) => (tr, .ok (some m))
    | (tr, .ok _) => (tr, .ok none)

/-- `getAvailableTxCount()`. -/
def getAvailableTxCountModel (st : SessionSt) (o : LibOracle) :
    List Call × Except Err Int :=
  match ensureOpenE st with
  | .error e => ([], .error e)
  | .ok _ =>
    match drvGetValue st.driverInitialized o st.deviceHandle
        "0/get_device_available_tx_count/1" with
    | (tr, .error e) => (tr, .error e)
    | (tr, .ok g) => (tr, .ok (gvalToCount g))

/-- The queue overlay on an encoded classic envelope: replace the control byte
with the delayed-queue flag (plus the echo flag when the session default
requests it) and write the delay, low byte first, into the reserved bytes. -/
def queueOverlayCan (echo : Bool) (d : ZcanTransmitDataW) (delay : Nat) : ZcanTransmitDataW :=
  let pad := TX_DELAY_SEND_FLAG ||| (if echo then TX_ECHO_FLAG else 0)
  { d with frame := { d.frame with
      __pad := pad
      __res0 := delay &&& 0xFF
      __res1 := (delay >>> 8) &&& 0xFF } }

/-- The queue overlay on an encoded FD envelope: OR the delayed-queue flag
(and the session-default echo flag) into the flags byte and write the delay
into the reserved bytes. -/
def queueOverlayFd (echo : Bool) (d : ZcanTransmitFdDataW) (delay : Nat) : ZcanTransmitFdDataW :=
  let flags := (d.frame.flags ||| TX_DELAY_SEND_FLAG) ||| (if echo then TX_ECHO_FLAG else 0)
  { d with frame := { d.frame with
      flags := flags
      __res0 := delay &&& 0xFF
      __res1 := (delay >>> 8) &&& 0xFF } }

/-- `transmitQueue(items)`. -/
def transmitQueueModel (st : SessionSt) (o : LibOracle) (items : List QueueSendItemW) :
    List Call × Except Err Nat :=
  match ensureOpenE st with
  | .error e => ([], .error e)
  | .ok _ =>
    let echo := echoDefault st.cfg
    let canItems := items.filter fun it => !isCanFdMessage it.message
    let canfdItems := items.filter fun it => isCanFdMessage it.message
    let canData := canItems.map fun it => queueOverlayCan echo (toZcanTransmitData it.message) it.delay
    let canfdData := canfdItems.map fun it => queueOverlayFd echo (toZcanTransmitFdData it.message) it.delay
    let (tr1, r1) :=
      if canItems.length > 0 then drvTransmit st.driverInitialized o st.channelHandle canData
      else ([], .ok 0)
    match r1 with
    | .error e => (tr1, .error e)
    | .ok n1 =>
      let (tr2, r2) :=
        if canfdItems.length > 0 then drvTransmitFD st.driverInitialized o st.channelHandle canfdData
        else ([], .ok 0)
      match r2 with
      | .error e => (tr1 ++ tr2, .error e)
      | .ok n2 => (tr1 ++ tr2, .ok (n1 + n2))

/-- `clearDelayQueue()`. -/
def clearDelayQueueModel (st : SessionSt) (o : LibOracle) : List Call × Except Err Unit :=
  match ensureOpenE st with
  | .error e => ([], .error e)
  | .ok _ => drvSetValue st.driverInitialized o st.deviceHandle "0/clear_delay_send_queue" (.s "0")

/-! ### The public operation algebra -/

/-- One public operation of the session, with its arguments. -/
inductive Op where
  | open'
  | close
  | receive (maxCount : Nat) (timeout : Int) (ty : MessageType)
  | transmit (msg : CanMsgW)
  | transmitBatch (msgs : List CanMsgW)
  | clearBuffer
  | getBufferCount (ty : MessageType)
  | addAutoSend (c : AutoSendConfigW)
  | applyAutoSend
  | clearAutoSend
  | getAutoSendCount (isFd : Bool)
  | getAutoSendData (index : Nat) (isFd : Bool)
  | getAvailableTxCount
  | transmitQueue (items : List QueueSendItemW)
  | clearDelayQueue
deriving DecidableEq, Repr

/-- Return values of the public operations. -/
inductive RetVal where
  | unit
  | nat (n : Nat)
  | int (i : Int)
  | msgs (l : List CanMsgW)
  | optMsg (m : Option CanMsgW)
deriving DecidableEq, Repr

/-- Whether an operation is guarded by `ensureOpen` (every data-plane and
configuration operation; only `open`/`close` are not). -/
def isGuarded : Op → Bool
  | .open' => false
  | .close => false
  | _ => true

/-- Execute one public operation: final session state, transport calls
performed, and the outcome. -/
def step (st : SessionSt) (o : LibOracle) : Op → SessionSt × List Call × Except Err RetVal
  | .open' =>
    let (st', tr, r) := openModel st o
    (st', tr, r.map fun _ => .unit)
  | .close =>
    let (st', tr, r) := closeModel st o
    (st', tr, r.map fun _ => .unit)
  | .receive mc tmo ty =>
    let (tr, r) := receiveModel st o mc tmo ty
    (st, tr, r.map .msgs)
  | .transmit m =>
    let (tr, r) := transmitModel st o m
    (st, tr, r.map fun _ => .unit)
  | .transmitBatch ms =>
    let (tr, r) := transmitBatchModel st o ms
    (st, tr, r.map .nat)
  | .clearBuffer =>
    let (tr, r) := clearBufferModel st o
    (st, tr, r.map fun _ => .unit)
  | .getBufferCount ty =>
    let (tr, r) := getBufferCountModel st o ty
    (st, tr, r.map .nat)
  | .addAutoSend c =>
    let (tr, r) := addAutoSendModel st o c
    (st, tr, r.map fun _ => .unit)
  | .applyAutoSend =>
    let (tr, r) := applyAutoSendModel st o
    (st, tr, r.map fun _ => .unit)
  | .clearAutoSend =>
    let (tr, r) := clearAutoSendModel st o
    (st, tr, r.map fun _ => .unit)
  | .getAutoSendCount isFd =>
    let (tr, r) := getAutoSendCountModel st o isFd
    (st, tr, r.map .int)
  | .getAutoSendData i isFd =>
    let (tr, r) := getAutoSendDataModel st o i isFd
    (st, tr, r.map .optMsg)
  | .getAvailableTxCount =>
    let (tr, r) := getAvailableTxCountModel st o
    (st, tr, r.map .int)
  | .transmitQueue items =>
    let (tr, r) := transmitQueueModel st o items
    (st, tr, r.map .nat)
  | .clearDelayQueue =>
    let (tr, r) := clearDelayQueueModel st o
    (st, tr, r.map fun _ => .unit)

/-! ### Reference fixtures used by witnesses -/

/-- A freshly constructed (closed) session with a typical config. -/
def closedSession : SessionSt := { cfg := { ip := "192.168.1.100", port := 8000 } }

/-- An open session (handles valid, driver initialised). -/
def openSession : SessionSt :=
  { cfg := { ip := "192.168.1.100", port := 8000 }
    deviceHandle := 7
    channelHandle := 9
    driverInitialized := true }

/-- A well-behaved transport: every call succeeds, bulk sends accept every
frame, receives return nothing. -/
def okOracle : LibOracle :=
  { openDeviceH := 7
    initCANH := 9
    startCANStatus := ZCAN_STATUS_OK
    closeDeviceStatus := ZCAN_STATUS_OK
    clearBufferStatus := ZCAN_STATUS_OK
    setValueStatus := fun _ => ZCAN_STATUS_OK
    getValuePtr := fun _ => 1
    getValueDecoded := fun _ => .num 0
    getReceiveNumRet := fun _ => 0
    transmitRet := fun l => l.length
    transmitFDRet := fun l => l.length
    receiveRet := fun _ _ => []
    receiveFDRet := fun _ _ => [] }

/-! ### C1: the not-open guard -/

/-- C1: every data-plane and configuration operation of the session (that is,
every guarded operation: `receive`, `transmit`, `transmitBatch`,
`clearBuffer`, `getBufferCount`, `addAutoSend`, `applyAutoSend`,
`clearAutoSend`, `getAutoSendCount`, `getAutoSendData`,
`getAvailableTxCount`, `transmitQueue`, `clearDelayQueue`), invoked while
`isOpen()` is `false`, throws the "device not open" error and performs no
transport call at all (and leaves the state untouched). -/
theorem guarded_ops_closed_throw_notOpen (st : SessionSt) (o : LibOracle) (op : Op)
    (hg : isGuarded op = true) (hc : isOpen st = false) :
    step st o op = (st, [], .error notOpenErr) := by
  cases op <;>
    simp_all [step, isGuarded, ensureOpenE, receiveModel, transmitModel, transmitBatchModel,
      clearBufferModel, getBufferCountModel, addAutoSendModel, applyAutoSendModel,
      clearAutoSendModel, getAutoSendCountModel, getAutoSendDataModel,
      getAvailableTxCountModel, transmitQueueModel, clearDelayQueueModel, Except.map]

/-- C1 witness: a concrete guarded call (`receive(100, 0, 'all')`) on a
freshly constructed session fails with the "device not open" error without
touching the transport. -/
theorem guarded_ops_closed_throw_notOpen_witness :
    isGuarded (Op.receive 100 0 .all) = true ∧ isOpen closedSession = false ∧
      step closedSession okOracle (Op.receive 100 0 .all) =
        (closedSession, [], .error notOpenErr) :=
  ⟨rfl, rfl, guarded_ops_closed_throw_notOpen closedSession okOracle _ rfl rfl⟩

/-! ### Bit-level helper lemmas for the codec -/

theorem toUint32_lt (x : Int) : toUint32 x < 4294967296 := by
  unfold toUint32
  omega

theorem toUint32_jsOr (x y : Int) :
    toUint32 (jsOr x y) = toUint32 x ||| toUint32 y := by
  unfold jsOr
  exact toUint32_toInt32_ofNat _ (Nat.or_lt_two_pow (n := 32) (toUint32_lt x) (toUint32_lt y))

theorem land_two_pow_ne_zero_iff (x n : Nat) :
    x &&& 2 ^ n ≠ 0 ↔ x.testBit n := by
  constructor
  · intro h
    obtain ⟨i, hi⟩ := Nat.ne_zero_implies_bit_true h
    rw [Nat.testBit_and, Nat.testBit_two_pow] at hi
    rcases Bool.and_eq_true_iff.mp hi with ⟨h1, h2⟩
    simpa [of_decide_eq_true h2] using h1
  · intro h h0
    have hb : (x &&& 2 ^ n).testBit n = false := by
      simp [h0, Nat.zero_testBit]
    rw [Nat.testBit_and, Nat.testBit_two_pow] at hb
    simp [h] at hb

theorem lor_flags_land_mask (id fl n : Nat) (hid : id < 2 ^ n)
    (hfl : ∀ i, i < n → fl.testBit i = false) :
    (id ||| fl) &&& (2 ^ n - 1) = id := by
  apply Nat.eq_of_testBit_eq
  intro i
  rw [Nat.testBit_and, Nat.testBit_or, Nat.testBit_two_pow_sub_one]
  by_cases h : i < n
  · simp [hfl i h, h]
  · have h1 : Nat.testBit id i = false :=
      Nat.testBit_lt_two_pow
        (lt_of_lt_of_le hid (Nat.pow_le_pow_right (by norm_num) (Nat.le_of_not_lt h)))
    simp [h, h1]

/-- The uint32 image of the `can_id` computed by the encoders, as a pure `Nat`
bit pattern. -/
theorem encoded_can_id_eq (id : Nat) (E R : Bool) (hid : id < 4294967296) :
    toUint32 (if R then jsOr (if E then jsOr (id : Int) (EFF_FLAG : Nat) else (id : Int))
                     (RTR_FLAG : Nat)
              else (if E then jsOr (id : Int) (EFF_FLAG : Nat) else (id : Int))) =
      (id ||| (if E then 2 ^ 31 else 0)) ||| (if R then 2 ^ 30 else 0) := by
  have heff : toUint32 ((EFF_FLAG : Nat) : Int) = 2 ^ 31 := by
    rw [toUint32_ofNat EFF_FLAG (by norm_num [EFF_FLAG])]; norm_num [EFF_FLAG]
  have hrtr : toUint32 ((RTR_FLAG : Nat) : Int) = 2 ^ 30 := by
    rw [toUint32_ofNat RTR_FLAG (by norm_num [RTR_FLAG])]; norm_num [RTR_FLAG]
  cases E <;> cases R <;>
    simp [toUint32_jsOr, toUint32_ofNat id hid, heff, hrtr, Nat.or_zero]

/-- Equality of `x != 0` with a boolean under a characterising iff. -/
theorem bne_zero_eq {x : Int} {b : Bool} (h : x ≠ 0 ↔ b = true) : (x != 0) = b := by
  cases b
  · have hx : x = 0 := by
      by_contra hc
      exact absurd (h.mp hc) (by simp)
    simp [hx]
  · simp [bne_iff_ne, h.mpr rfl]

/-- Decoding the extended bit from the wire `can_id` bit pattern. -/
theorem decode_ext_bit (id : Nat) (E R : Bool) (hid : id < 2 ^ 31) :
    (jsAnd ((((id ||| (if E then 2 ^ 31 else 0)) ||| (if R then 2 ^ 30 else 0)) : Nat) : Int)
        ((EFF_FLAG : Nat) : Int) != 0) = E := by
  have hwlt : (id ||| (if E then 2 ^ 31 else 0)) ||| (if R then 2 ^ 30 else 0) < 4294967296 := by
    apply Nat.or_lt_two_pow (n := 32)
    · exact Nat.or_lt_two_pow (n := 32) (lt_trans hid (by norm_num))
        (by cases E <;> norm_num)
    · cases R <;> norm_num
  have heq : (EFF_FLAG : Nat) = 2 ^ 31 := by norm_num [EFF_FLAG]
  have hbit : ((id ||| (if E then 2 ^ 31 else 0)) ||| (if R then 2 ^ 30 else 0)).testBit 31
      = E := by
    have hid31 : id.testBit 31 = false := Nat.testBit_lt_two_pow hid
    cases E <;> cases R <;>
      simp [Nat.testBit_or, hid31, Nat.testBit_two_pow, Nat.zero_testBit] <;> decide
  apply bne_zero_eq
  rw [heq]
  exact ((jsAnd_ofNat_ne_zero_iff _ (2 ^ 31) hwlt (by norm_num)).trans
    (land_two_pow_ne_zero_iff _ 31)).trans (by rw [hbit])

/-- Decoding the remote bit from the wire `can_id` bit pattern. -/
theorem decode_rtr_bit (id : Nat) (E R : Bool) (hid : id < 2 ^ 30) :
    (jsAnd ((((id ||| (if E then 2 ^ 31 else 0)) ||| (if R then 2 ^ 30 else 0)) : Nat) : Int)
        ((RTR_FLAG : Nat) : Int) != 0) = R := by
  have hwlt : (id ||| (if E then 2 ^ 31 else 0)) ||| (if R then 2 ^ 30 else 0) < 4294967296 := by
    apply Nat.or_lt_two_pow (n := 32)
    · exact Nat.or_lt_two_pow (n := 32) (lt_trans hid (by norm_num))
        (by cases E <;> norm_num)
    · cases R <;> norm_num
  have heq : (RTR_FLAG : Nat) = 2 ^ 30 := by norm_num [RTR_FLAG]
  have hbit : ((id ||| (if E then 2 ^ 31 else 0)) ||| (if R then 2 ^ 30 else 0)).testBit 30
      = R := by
    have hid30 : id.testBit 30 = false := Nat.testBit_lt_two_pow hid
    cases E <;> cases R <;>
      simp [Nat.testBit_or, hid30, Nat.testBit_two_pow, Nat.zero_testBit] <;> decide
  apply bne_zero_eq
  rw [heq]
  exact ((jsAnd_ofNat_ne_zero_iff _ (2 ^ 30) hwlt (by norm_num)).trans
    (land_two_pow_ne_zero_iff _ 30)).trans (by rw [hbit])

/-- Recovering the identifier by masking the wire `can_id` bit pattern. -/
theorem decode_id_mask (id : Nat) (E R : Bool)
    (hid : id < if E then 2 ^ 29 else 2 ^ 11) :
    (jsAnd ((((id ||| (if E then 2 ^ 31 else 0)) ||| (if R then 2 ^ 30 else 0)) : Nat) : Int)
        (if E then ((EFF_MASK : Nat) : Int) else ((SFF_MASK : Nat) : Int))).toNat = id := by
  have hmaskE : (EFF_MASK : Nat) = 2 ^ 29 - 1 := by norm_num [EFF_MASK]
  have hmaskS : (SFF_MASK : Nat) = 2 ^ 11 - 1 := by norm_num [SFF_MASK]
  cases E <;> cases R <;> simp only [Bool.false_eq_true, if_false, if_true] at hid ⊢ <;>
    [skip; skip; skip; skip]
  · have hw : id ||| 0 ||| 0 = id ||| 0 := by rw [Nat.or_zero (id ||| 0)]
    rw [hw, hmaskS,
      jsAnd_ofNat_small _ _ (Nat.or_lt_two_pow (n := 32) (by omega) (by norm_num)) (by norm_num),
      Int.toNat_ofNat]
    exact lor_flags_land_mask id 0 11 hid fun i _ => Nat.zero_testBit i
  · rw [hmaskS,
      jsAnd_ofNat_small _ _
        (Nat.or_lt_two_pow (n := 32)
          (Nat.or_lt_two_pow (n := 32) (by omega) (by norm_num)) (by norm_num))
        (by norm_num),
      Int.toNat_ofNat, Nat.or_assoc]
    refine lor_flags_land_mask id _ 11 hid fun i hi => ?_
    rw [Nat.testBit_or, Nat.zero_testBit, Nat.testBit_two_pow_of_ne (by omega)]
    rfl
  · rw [hmaskE,
      jsAnd_ofNat_small _ _
        (Nat.or_lt_two_pow (n := 32)
          (Nat.or_lt_two_pow (n := 32) (by omega) (by norm_num)) (by norm_num))
        (by norm_num),
      Int.toNat_ofNat, Nat.or_assoc]
    refine lor_flags_land_mask id _ 29 hid fun i hi => ?_
    rw [Nat.testBit_or, Nat.zero_testBit, Nat.testBit_two_pow_of_ne (by omega)]
    rfl
  · rw [hmaskE,
      jsAnd_ofNat_small _ _
        (Nat.or_lt_two_pow (n := 32)
          (Nat.or_lt_two_pow (n := 32) (by omega) (by norm_num)) (by norm_num))
        (by norm_num),
      Int.toNat_ofNat, Nat.or_assoc]
    refine lor_flags_land_mask id _ 29 hid fun i hi => ?_
    rw [Nat.testBit_or, Nat.testBit_two_pow_of_ne (by omega),
      Nat.testBit_two_pow_of_ne (by omega)]
    rfl

/-! ### Wire serialisation of an encoded envelope

The ABI (`types.ts`) stores `can_id` as a `uint32` and the driver's transmit
loop pads the payload to the frame's fixed capacity; a receive envelope built
from those bytes is what a decoder sees on round-trip. -/

/-- The receive-side view of an encoded classic transmit envelope. -/
def classicWire (d : ZcanTransmitDataW) (ts : Nat) : ZcanReceiveDataW :=
  { frame := { d.frame with
      can_id := (toUint32 d.frame.can_id : Int)
      data := (d.frame.data ++ List.replicate (8 - d.frame.data.length) 0).take 8 }
    timestamp := ts }

/-- The receive-side view of an encoded FD transmit envelope. -/
def fdWire (d : ZcanTransmitFdDataW) (ts : Nat) : ZcanReceiveFdDataW :=
  { frame := { d.frame with
      can_id := (toUint32 d.frame.can_id : Int)
      data := (d.frame.data ++ List.replicate (64 - d.frame.data.length) 0).take 64 }
    timestamp := ts }

/-! ### C2: codec round trip -/

/-- C2: for every message whose id fits its kind (11-bit standard, 29-bit
extended) and whose payload fits the kind's capacity (8 bytes classic, 64
bytes FD), decoding the encoded wire frame returns the same id, extended and
remote flags and payload bytes, and for the FD codec also the same BRS and
ESI flags — for any echo setting and transmit type. -/
theorem codec_roundtrip (msg : CanMsgW) (t : Nat) (ec : Bool) (ts : Nat)
    (hid : msg.id < if jsTruthy msg.isExtended then 2 ^ 29 else 2 ^ 11) :
    (msg.data.length ≤ 8 →
      fromZcanReceiveData (classicWire (toZcanTransmitData msg t ec) ts) =
        { id := msg.id, data := msg.data,
          isExtended := some (jsTruthy msg.isExtended),
          isRemote := some (jsTruthy msg.isRemote),
          timestamp := some ts }) ∧
    (msg.data.length ≤ 64 →
      fromZcanReceiveFdData (fdWire (toZcanTransmitFdData msg t ec) ts) =
        { id := msg.id, data := msg.data,
          isExtended := some (jsTruthy msg.isExtended),
          isRemote := some (jsTruthy msg.isRemote),
          timestamp := some ts,
          brs := some (jsTruthy msg.brs),
          esi := some (jsTruthy msg.esi) }) := by
  have hid32 : msg.id < 4294967296 := by
    by_cases hE : jsTruthy msg.isExtended <;> simp [hE] at hid <;> omega
  have hid31 : msg.id < 2 ^ 31 := by
    by_cases hE : jsTruthy msg.isExtended <;> simp [hE] at hid <;> omega
  have hid30 : msg.id < 2 ^ 30 := by
    by_cases hE : jsTruthy msg.isExtended <;> simp [hE] at hid <;> omega
  have hW := encoded_can_id_eq msg.id (jsTruthy msg.isExtended) (jsTruthy msg.isRemote) hid32
  have hE := decode_ext_bit msg.id (jsTruthy msg.isExtended) (jsTruthy msg.isRemote) hid31
  have hR := decode_rtr_bit msg.id (jsTruthy msg.isExtended) (jsTruthy msg.isRemote) hid30
  have hI := decode_id_mask msg.id (jsTruthy msg.isExtended) (jsTruthy msg.isRemote) hid
  constructor
  · intro hlen
    have hdata : List.take msg.data.length
        ((msg.data ++ List.replicate (8 - msg.data.length) 0).take 8) = msg.data := by
      rw [List.take_take, Nat.min_eq_left hlen, List.take_left' rfl]
    simp only [fromZcanReceiveData, classicWire, toZcanTransmitData]
    simp only [hW, hE, hR]
    simp only [CanMsgW.mk.injEq]
    exact ⟨hI, hdata, trivial, trivial, trivial, trivial, trivial⟩
  · intro hlen
    have hdata : List.take msg.data.length
        ((msg.data ++ List.replicate (64 - msg.data.length) 0).take 64) = msg.data := by
      rw [List.take_take, Nat.min_eq_left hlen, List.take_left' rfl]
    have hflags : ∀ fl : Nat,
        fl = (if ec then ((if jsTruthy msg.esi then
                ((if jsTruthy msg.brs then (0 ||| CANFD_BRS) else 0) ||| CANFD_ESI)
              else ((if jsTruthy msg.brs then (0 ||| CANFD_BRS) else 0))) ||| TX_ECHO_FLAG)
            else ((if jsTruthy msg.esi then
                ((if jsTruthy msg.brs then (0 ||| CANFD_BRS) else 0) ||| CANFD_ESI)
              else ((if jsTruthy msg.brs then (0 ||| CANFD_BRS) else 0))))) →
        ((fl &&& CANFD_BRS != 0) = jsTruthy msg.brs ∧
         (fl &&& CANFD_ESI != 0) = jsTruthy msg.esi) := by
      intro fl hfl
      subst hfl
      cases jsTruthy msg.brs <;> cases jsTruthy msg.esi <;> cases ec <;>
        exact ⟨by decide, by decide⟩
    obtain ⟨hb, he⟩ := hflags _ rfl
    simp only [fromZcanReceiveFdData, fdWire, toZcanTransmitFdData]
    simp only [hW, hE, hR, hb, he]
    simp only [CanMsgW.mk.injEq]
    exact ⟨hI, hdata, trivial, trivial, trivial, trivial, trivial⟩

/-- C2 witness: the round trip evaluated at a concrete classic message and a
concrete extended FD message. -/
theorem codec_roundtrip_witness :
    fromZcanReceiveData (classicWire
        (toZcanTransmitData { id := 0x123, data := [17, 34] } 0 true) 99) =
      { id := 0x123, data := [17, 34], isExtended := some false,
        isRemote := some false, timestamp := some 99 } ∧
    fromZcanReceiveFdData (fdWire
        (toZcanTransmitFdData
          { id := 0x12345678, data := [1, 2, 3, 4, 5, 6, 7, 8, 9],
            isExtended := some true, brs := some true, esi := some false } 0 true) 7) =
      { id := 0x12345678, data := [1, 2, 3, 4, 5, 6, 7, 8, 9],
        isExtended := some true, isRemote := some false, timestamp := some 7,
        brs := some true, esi := some false } :=
  ⟨(codec_roundtrip { id := 0x123, data := [17, 34] } 0 true 99 (by decide)).1 (by decide),
   (codec_roundtrip
      { id := 0x12345678, data := [1, 2, 3, 4, 5, 6, 7, 8, 9],
        isExtended := some true, brs := some true, esi := some false } 0 true 7
      (by decide)).2 (by decide)⟩

/-! ### C7: extended-id round trip despite the negative signed 32-bit id -/

/-- C7: encoding id `0x12345678` with `isExtended` makes the stored
`id_and_flags` negative under JS signed 32-bit arithmetic, yet decoding the
wire frame recovers id `0x12345678` and the extended flag intact. -/
theorem extended_id_sign_roundtrip :
    (toZcanTransmitData
        { id := 0x12345678, data := [1, 2, 3], isExtended := some true }
        0 false).frame.can_id < 0 ∧
    (fromZcanReceiveData (classicWire
        (toZcanTransmitData
          { id := 0x12345678, data := [1, 2, 3], isExtended := some true }
          0 false) 0)).id = 0x12345678 ∧
    (fromZcanReceiveData (classicWire
        (toZcanTransmitData
          { id := 0x12345678, data := [1, 2, 3], isExtended := some true }
          0 false) 0)).isExtended = some true :=
  ⟨by decide, by decide, by decide⟩

/-! ### C8: decoding is total and clamps the declared length -/

/-- C8: for every receive envelope — including one whose declared length
exceeds the frame capacity — decoding is total and returns exactly the first
`min(declared length, data array length)` bytes of the data array (a prefix;
no out-of-bounds access is possible). -/
theorem decode_total_clamped (d : ZcanReceiveDataW) (e : ZcanReceiveFdDataW) :
    (fromZcanReceiveData d).data = d.frame.data.take d.frame.can_dlc ∧
    ((fromZcanReceiveData d).data).length = min d.frame.can_dlc d.frame.data.length ∧
    (fromZcanReceiveData d).data <+: d.frame.data ∧
    (fromZcanReceiveFdData e).data = e.frame.data.take e.frame.len ∧
    ((fromZcanReceiveFdData e).data).length = min e.frame.len e.frame.data.length ∧
    (fromZcanReceiveFdData e).data <+: e.frame.data := by
  refine ⟨rfl, ?_, ?_, rfl, ?_, ?_⟩ <;>
    simp [fromZcanReceiveData, fromZcanReceiveFdData, List.length_take, List.take_prefix]

/-! ### C4: queue-send overlay encoding -/

/-- C4: for every item passed to `transmitQueue` and any session echo default:
the produced wire frame carries the delay in the two reserved bytes low byte
first (e.g. delay 300 gives `{0x2C, 0x01}`), has the delayed-queue bit `0x80`
set in the classic control byte / FD flags byte, has the echo bit `0x20` set
iff the session default enables echo (independent of the item), and the
overlay composes with the base encoding: `can_id` (extended/remote bits) and,
for FD, the BRS/ESI bits are preserved. -/
theorem transmitQueue_overlay_spec (echo : Bool) (item : QueueSendItemW) :
    (item.delay = 300 →
      (queueOverlayCan echo (toZcanTransmitData item.message) item.delay).frame.__res0 = 0x2C ∧
      (queueOverlayCan echo (toZcanTransmitData item.message) item.delay).frame.__res1 = 0x01) ∧
    (queueOverlayCan echo (toZcanTransmitData item.message) item.delay).frame.__res0
        = item.delay &&& 0xFF ∧
    (queueOverlayCan echo (toZcanTransmitData item.message) item.delay).frame.__res1
        = (item.delay >>> 8) &&& 0xFF ∧
    (queueOverlayCan echo (toZcanTransmitData item.message) item.delay).frame.__pad.testBit 7
        = true ∧
    (queueOverlayCan echo (toZcanTransmitData item.message) item.delay).frame.__pad.testBit 5
        = echo ∧
    (queueOverlayCan echo (toZcanTransmitData item.message) item.delay).frame.can_id
        = (toZcanTransmitData item.message).frame.can_id ∧
    (queueOverlayCan echo (toZcanTransmitData item.message) item.delay).frame.data
        = (toZcanTransmitData item.message).frame.data ∧
    (queueOverlayFd echo (toZcanTransmitFdData item.message) item.delay).frame.__res0
        = item.delay &&& 0xFF ∧
    (queueOverlayFd echo (toZcanTransmitFdData item.message) item.delay).frame.__res1
        = (item.delay >>> 8) &&& 0xFF ∧
    (queueOverlayFd echo (toZcanTransmitFdData item.message) item.delay).frame.flags.testBit 7
        = true ∧
    (queueOverlayFd echo (toZcanTransmitFdData item.message) item.delay).frame.flags.testBit 5
        = echo ∧
    (queueOverlayFd echo (toZcanTransmitFdData item.message) item.delay).frame.flags.testBit 0
        = jsTruthy item.message.brs ∧
    (queueOverlayFd echo (toZcanTransmitFdData item.message) item.delay).frame.flags.testBit 1
        = jsTruthy item.message.esi ∧
    (queueOverlayFd echo (toZcanTransmitFdData item.message) item.delay).frame.can_id
        = (toZcanTransmitFdData item.message).frame.can_id ∧
    (queueOverlayFd echo (toZcanTransmitFdData item.message) item.delay).frame.data
        = (toZcanTransmitFdData item.message).frame.data := by
  refine ⟨?_, rfl, rfl, ?_, ?_, rfl, rfl, rfl, rfl, ?_, ?_, ?_, ?_, rfl, rfl⟩
  · intro h
    rw [show (queueOverlayCan echo (toZcanTransmitData item.message) item.delay).frame.__res0
        = item.delay &&& 0xFF from rfl,
      show (queueOverlayCan echo (toZcanTransmitData item.message) item.delay).frame.__res1
        = (item.delay >>> 8) &&& 0xFF from rfl, h]
    exact ⟨by decide, by decide⟩
  · cases echo <;> simp only [queueOverlayCan] <;> decide
  · cases echo <;> simp only [queueOverlayCan] <;> decide
  · cases hb : jsTruthy item.message.brs <;> cases he : jsTruthy item.message.esi <;>
      cases echo <;> simp [queueOverlayFd, toZcanTransmitFdData, hb, he] <;> decide
  · cases hb : jsTruthy item.message.brs <;> cases he : jsTruthy item.message.esi <;>
      cases echo <;> simp [queueOverlayFd, toZcanTransmitFdData, hb, he] <;> decide
  · cases hb : jsTruthy item.message.brs <;> cases he : jsTruthy item.message.esi <;>
      cases echo <;> simp [queueOverlayFd, toZcanTransmitFdData, hb, he] <;> decide
  · cases hb : jsTruthy item.message.brs <;> cases he : jsTruthy item.message.esi <;>
      cases echo <;> simp [queueOverlayFd, toZcanTransmitFdData, hb, he] <;> decide

/-- C4 witness: the overlay evaluated at delay 300 with echo default on. -/
theorem transmitQueue_overlay_spec_witness :
    (queueOverlayCan true
        (toZcanTransmitData { id := 1, data := [0] }) 300).frame.__res0 = 0x2C ∧
    (queueOverlayCan true
        (toZcanTransmitData { id := 1, data := [0] }) 300).frame.__res1 = 0x01 :=
  (transmitQueue_overlay_spec true { message := { id := 1, data := [0] }, delay := 300 }).1 rfl

/-! ### C5: receive merge and stable timestamp ordering -/

instance : IsTotal CanMsgW tsLe := ⟨fun a b => Nat.le_total (tsVal a) (tsVal b)⟩

instance : IsTrans CanMsgW tsLe := ⟨fun _ _ _ => Nat.le_trans⟩

theorem filter_orderedInsert (t : Nat) (x : CanMsgW) :
    ∀ l : List CanMsgW,
      (List.orderedInsert tsLe x l).filter (fun m => tsVal m == t)
        = if tsVal x = t then x :: l.filter (fun m => tsVal m == t)
          else l.filter (fun m => tsVal m == t)
  | [] => by
      by_cases h : tsVal x = t <;> simp [List.orderedInsert, List.filter_cons, h]
  | y :: ys => by
      rw [List.orderedInsert]
      by_cases hxy : tsLe x y
      · rw [if_pos hxy]
        by_cases h : tsVal x = t <;> simp [List.filter_cons, h]
      · rw [if_neg hxy]
        have hyx : tsVal y < tsVal x := Nat.lt_of_not_le hxy
        by_cases h : tsVal x = t
        · have hy : ¬ tsVal y = t := by omega
          simp [List.filter_cons, hy, h, filter_orderedInsert t x ys]
        · by_cases hy : tsVal y = t <;>
            simp [List.filter_cons, hy, h, filter_orderedInsert t x ys]

theorem filter_sortByTs (t : Nat) :
    ∀ l : List CanMsgW,
      (sortByTs l).filter (fun m => tsVal m == t) = l.filter (fun m => tsVal m == t)
  | [] => rfl
  | x :: xs => by
      rw [sortByTs, List.insertionSort]
      rw [show List.insertionSort tsLe xs = sortByTs xs from rfl, filter_orderedInsert]
      by_cases h : tsVal x = t <;>
        simp [List.filter_cons, h, filter_sortByTs t xs]

theorem sortByTs_sorted (l : List CanMsgW) : List.Sorted tsLe (sortByTs l) :=
  List.sorted_insertionSort tsLe l

/-- C5: `receive(maxCount, timeout, 'all')` performs one classic and one FD
bulk receive and returns the stable timestamp sort of the concatenation
(decoded classic envelopes first): the result is non-decreasing in timestamp
and, for every timestamp value, the elements carrying it appear in exactly
the encounter order of the concatenation (stability).  For `'can'` and
`'canfd'` no sort is performed: the transport's own ordering of the single
kind is returned as decoded. -/
theorem receive_merge_sort_spec (st : SessionSt) (o : LibOracle) (mc : Nat) (tmo : Int)
    (hopen : isOpen st = true) (hini : st.driverInitialized = true) :
    receiveModel st o mc tmo .all =
      ([Call.receive st.channelHandle mc tmo, Call.receiveFD st.channelHandle mc tmo],
        .ok (sortByTs ((o.receiveRet mc tmo).map fromZcanReceiveData ++
          (o.receiveFDRet mc tmo).map fromZcanReceiveFdData))) ∧
    List.Sorted tsLe (sortByTs ((o.receiveRet mc tmo).map fromZcanReceiveData ++
      (o.receiveFDRet mc tmo).map fromZcanReceiveFdData)) ∧
    (∀ t : Nat,
      (sortByTs ((o.receiveRet mc tmo).map fromZcanReceiveData ++
        (o.receiveFDRet mc tmo).map fromZcanReceiveFdData)).filter (fun m => tsVal m == t)
      = ((o.receiveRet mc tmo).map fromZcanReceiveData ++
          (o.receiveFDRet mc tmo).map fromZcanReceiveFdData).filter (fun m => tsVal m == t)) ∧
    receiveModel st o mc tmo .can =
      ([Call.receive st.channelHandle mc tmo],
        .ok ((o.receiveRet mc tmo).map fromZcanReceiveData)) ∧
    receiveModel st o mc tmo .canfd =
      ([Call.receiveFD st.channelHandle mc tmo],
        .ok ((o.receiveFDRet mc tmo).map fromZcanReceiveFdData)) := by
  refine ⟨?_, sortByTs_sorted _, fun t => filter_sortByTs t _, ?_, ?_⟩ <;>
    simp [receiveModel, ensureOpenE, hopen, hini, drvReceive, drvReceiveFD, Except.map]

/-- A classic receive envelope with timestamp 5. -/
def rxE1 : ZcanReceiveDataW :=
  { frame := { can_id := 0x100, can_dlc := 1, __pad := 0, __res0 := 0, __res1 := 0,
               data := [1] }, timestamp := 5 }

/-- A classic receive envelope with timestamp 2. -/
def rxE2 : ZcanReceiveDataW :=
  { frame := { can_id := 0x101, can_dlc := 1, __pad := 0, __res0 := 0, __res1 := 0,
               data := [2] }, timestamp := 2 }

/-- An FD receive envelope with timestamp 5. -/
def rxF1 : ZcanReceiveFdDataW :=
  { frame := { can_id := 0x102, len := 1, flags := 0, __res0 := 0, __res1 := 0,
               data := [3] }, timestamp := 5 }

/-- Transport behaviour with two classic envelopes (timestamps 5 and 2) and
one FD envelope (timestamp 5), for exercising the merge-sort. -/
def rxOracle : LibOracle :=
  { okOracle with
    receiveRet := fun _ _ => [rxE1, rxE2]
    receiveFDRet := fun _ _ => [rxF1] }

/-- C5 witness: on an open session the merged result is sorted by timestamp
and the classic envelope with timestamp 5 stays before the FD envelope with
timestamp 5 (stability), while single-kind receives keep the raw order. -/
theorem receive_merge_sort_spec_witness :
    receiveModel openSession rxOracle 100 0 .all =
      ([Call.receive 9 100 0, Call.receiveFD 9 100 0],
        .ok [fromZcanReceiveData rxE2, fromZcanReceiveData rxE1,
             fromZcanReceiveFdData rxF1]) ∧
    receiveModel openSession rxOracle 100 0 .can =
      ([Call.receive 9 100 0],
        .ok [fromZcanReceiveData rxE1, fromZcanReceiveData rxE2]) := by
  have h := receive_merge_sort_spec openSession rxOracle 100 0 rfl rfl
  exact ⟨h.1.trans (by rfl), h.2.2.2.1.trans (by rfl)⟩

/-! ### Padding lemmas (driver transmit loop) -/

/-- Total padding of a classic envelope (defined on payloads within capacity,
where it agrees with the driver's `forEach` body). -/
def padClassicTotal (d : ZcanTransmitDataW) : ZcanTransmitDataW :=
  { d with frame := { d.frame with
      data := (d.frame.data ++ List.replicate (8 - d.frame.data.length) 0).take 8 } }

/-- Total padding of an FD envelope. -/
def padFdTotal (d : ZcanTransmitFdDataW) : ZcanTransmitFdDataW :=
  { d with frame := { d.frame with
      data := (d.frame.data ++ List.replicate (64 - d.frame.data.length) 0).take 64 } }

theorem mapM_padClassic_ok :
    ∀ items : List ZcanTransmitDataW, (∀ d ∈ items, d.frame.data.length ≤ 8) →
      mapExcept padClassicItem items = .ok (items.map padClassicTotal)
  | [], _ => rfl
  | d :: rest, h => by
      have hd : padClassicItem d = .ok (padClassicTotal d) := by
        unfold padClassicItem padTo
        rw [if_pos (h d (List.mem_cons_self d rest))]
        rfl
      have hrest := mapM_padClassic_ok rest fun x hx => h x (List.mem_cons_of_mem d hx)
      simp [mapExcept, hd, hrest]

theorem mapM_padClassic_err :
    ∀ items : List ZcanTransmitDataW, (∃ d ∈ items, 8 < d.frame.data.length) →
      mapExcept padClassicItem items = .error .rangeError
  | d :: rest, h => by
      by_cases hd : d.frame.data.length ≤ 8
      · have hdo : padClassicItem d = .ok (padClassicTotal d) := by
          unfold padClassicItem padTo
          rw [if_pos hd]
          rfl
        have hrest : ∃ x ∈ rest, 8 < x.frame.data.length := by
          obtain ⟨x, hx, hlen⟩ := h
          rcases List.mem_cons.mp hx with rfl | hx'
          · omega
          · exact ⟨x, hx', hlen⟩
        simp [mapExcept, hdo, mapM_padClassic_err rest hrest]
      · have hde : padClassicItem d = .error .rangeError := by
          unfold padClassicItem padTo
          rw [if_neg hd]
          rfl
        simp [mapExcept, hde]

theorem mapM_padFd_ok :
    ∀ items : List ZcanTransmitFdDataW, (∀ d ∈ items, d.frame.data.length ≤ 64) →
      mapExcept padFdItem items = .ok (items.map padFdTotal)
  | [], _ => rfl
  | d :: rest, h => by
      have hd : padFdItem d = .ok (padFdTotal d) := by
        unfold padFdItem padTo
        rw [if_pos (h d (List.mem_cons_self d rest))]
        rfl
      have hrest := mapM_padFd_ok rest fun x hx => h x (List.mem_cons_of_mem d hx)
      simp [mapExcept, hd, hrest]

theorem mapM_padFd_err :
    ∀ items : List ZcanTransmitFdDataW, (∃ d ∈ items, 64 < d.frame.data.length) →
      mapExcept padFdItem items = .error .rangeError
  | d :: rest, h => by
      by_cases hd : d.frame.data.length ≤ 64
      · have hdo : padFdItem d = .ok (padFdTotal d) := by
          unfold padFdItem padTo
          rw [if_pos hd]
          rfl
        have hrest : ∃ x ∈ rest, 64 < x.frame.data.length := by
          obtain ⟨x, hx, hlen⟩ := h
          rcases List.mem_cons.mp hx with rfl | hx'
          · omega
          · exact ⟨x, hx', hlen⟩
        simp [mapExcept, hdo, mapM_padFd_err rest hrest]
      · have hde : padFdItem d = .error .rangeError := by
          unfold padFdItem padTo
          rw [if_neg hd]
          rfl
        simp [mapExcept, hde]

theorem padClassicTotal_length (d : ZcanTransmitDataW) (h : d.frame.data.length ≤ 8) :
    (padClassicTotal d).frame.data.length = 8 := by
  simp [padClassicTotal]
  omega

theorem padFdTotal_length (d : ZcanTransmitFdDataW) (h : d.frame.data.length ≤ 64) :
    (padFdTotal d).frame.data.length = 64 := by
  simp [padFdTotal]
  omega

/-! ### C9: the transmit path never submits an oversized data area -/

/-- C9: for payloads exceeding the kind's capacity the driver transmit path
rejects the batch deterministically (the `RangeError` of `new Array(n)` with
negative `n`) before any native call; for payloads within capacity every
submitted frame's data area is exactly the frame capacity (8 / 64 bytes), so
an envelope with an oversized data area is never handed to the transport. -/
theorem transmit_never_oversized (o : LibOracle) (ch : Nat)
    (items : List ZcanTransmitDataW) (fitems : List ZcanTransmitFdDataW) :
    ((∃ d ∈ items, 8 < d.frame.data.length) →
      drvTransmit true o ch items = ([], .error .rangeError)) ∧
    ((∀ d ∈ items, d.frame.data.length ≤ 8) →
      drvTransmit true o ch items =
        ([Call.transmit ch (items.map padClassicTotal)],
          .ok (o.transmitRet (items.map padClassicTotal))) ∧
      ∀ f ∈ items.map padClassicTotal, f.frame.data.length = 8) ∧
    ((∃ d ∈ fitems, 64 < d.frame.data.length) →
      drvTransmitFD true o ch fitems = ([], .error .rangeError)) ∧
    ((∀ d ∈ fitems, d.frame.data.length ≤ 64) →
      drvTransmitFD true o ch fitems =
        ([Call.transmitFD ch (fitems.map padFdTotal)],
          .ok (o.transmitFDRet (fitems.map padFdTotal))) ∧
      ∀ f ∈ fitems.map padFdTotal, f.frame.data.length = 64) := by
  refine ⟨fun h => ?_, fun h => ⟨?_, ?_⟩, fun h => ?_, fun h => ⟨?_, ?_⟩⟩
  · simp [drvTransmit, mapM_padClassic_err items h]
  · simp [drvTransmit, mapM_padClassic_ok items h]
  · intro f hf
    obtain ⟨d, hd, rfl⟩ := List.mem_map.mp hf
    exact padClassicTotal_length d (h d hd)
  · simp [drvTransmitFD, mapM_padFd_err fitems h]
  · simp [drvTransmitFD, mapM_padFd_ok fitems h]
  · intro f hf
    obtain ⟨d, hd, rfl⟩ := List.mem_map.mp hf
    exact padFdTotal_length d (h d hd)

/-- C9 witness: a 9-byte classic payload is rejected with no native call; a
2-byte classic payload is padded to exactly 8 bytes and submitted once. -/
theorem transmit_never_oversized_witness :
    drvTransmit true okOracle 9
        [{ frame := { can_id := 1, can_dlc := 9, __pad := 0, __res0 := 0, __res1 := 0,
                      data := [0, 1, 2, 3, 4, 5, 6, 7, 8] }, transmit_type := 0 }] =
      ([], .error .rangeError) ∧
    drvTransmit true okOracle 9
        [{ frame := { can_id := 1, can_dlc := 2, __pad := 0, __res0 := 0, __res1 := 0,
                      data := [1, 2] }, transmit_type := 0 }] =
      ([Call.transmit 9
          [{ frame := { can_id := 1, can_dlc := 2, __pad := 0, __res0 := 0, __res1 := 0,
                        data := [1, 2, 0, 0, 0, 0, 0, 0] }, transmit_type := 0 }]], .ok 1) :=
  ⟨(transmit_never_oversized okOracle 9 _ []).1 (by decide),
   ((transmit_never_oversized okOracle 9 _ []).2.1 (by decide)).1.trans (by rfl)⟩

/-! ### C6: transmitBatch partitioning and summed result -/

/-- C6 counterexample: `transmitBatch` with one classic message carrying a
9-byte payload throws (the driver's padding `RangeError`) and performs no
transport call, although its classic partition is non-empty — so, as stated
for *every* input list, the claim fails. -/
theorem transmitBatch_oversize_counterexample :
    transmitBatchModel openSession okOracle
        [{ id := 1, data := [0, 1, 2, 3, 4, 5, 6, 7, 8] }] = ([], .error .rangeError) ∧
    ([({ id := 1, data := [0, 1, 2, 3, 4, 5, 6, 7, 8] } : CanMsgW)].filter
        (fun m => !isCanFdMessage m)).length > 0 :=
  ⟨rfl, by decide⟩

/-- C6 (amended): for every input list whose messages' payloads are within
their kind's capacity, `transmitBatch` partitions by kind preserving relative
order (the partitions are the order-preserving filters of the input), makes
exactly one bulk-send transport call per non-empty partition and none for an
empty one, and returns the sum of the accepted counts; in particular the
empty input yields 0 and no transport call. -/
theorem transmitBatch_spec (st : SessionSt) (o : LibOracle) (msgs : List CanMsgW)
    (hopen : isOpen st = true) (hini : st.driverInitialized = true)
    (hcap : ∀ m ∈ msgs, m.data.length ≤ if isCanFdMessage m then 64 else 8) :
    transmitBatchModel st o msgs =
      ((if (msgs.filter fun m => !isCanFdMessage m).length > 0 then
          [Call.transmit st.channelHandle
            (((msgs.filter fun m => !isCanFdMessage m).map fun m =>
              toZcanTransmitData m ZCAN_TRANSMIT_TYPE_NORMAL (echoDefault st.cfg)).map
                padClassicTotal)]
        else []) ++
       (if (msgs.filter fun m => isCanFdMessage m).length > 0 then
          [Call.transmitFD st.channelHandle
            (((msgs.filter fun m => isCanFdMessage m).map fun m =>
              toZcanTransmitFdData m ZCAN_TRANSMIT_TYPE_NORMAL (echoDefault st.cfg)).map
                padFdTotal)]
        else []),
       .ok ((if (msgs.filter fun m => !isCanFdMessage m).length > 0 then
              o.transmitRet (((msgs.filter fun m => !isCanFdMessage m).map fun m =>
                toZcanTransmitData m ZCAN_TRANSMIT_TYPE_NORMAL (echoDefault st.cfg)).map
                  padClassicTotal)
            else 0) +
            (if (msgs.filter fun m => isCanFdMessage m).length > 0 then
              o.transmitFDRet (((msgs.filter fun m => isCanFdMessage m).map fun m =>
                toZcanTransmitFdData m ZCAN_TRANSMIT_TYPE_NORMAL (echoDefault st.cfg)).map
                  padFdTotal)
            else 0))) := by
  have hcanCap : ∀ d ∈ (msgs.filter fun m => !isCanFdMessage m).map fun m =>
      toZcanTransmitData m ZCAN_TRANSMIT_TYPE_NORMAL (echoDefault st.cfg),
      d.frame.data.length ≤ 8 := by
    intro d hd
    obtain ⟨m, hm, rfl⟩ := List.mem_map.mp hd
    obtain ⟨hmem, hkind⟩ := List.mem_filter.mp hm
    have := hcap m hmem
    simp only [Bool.not_eq_true'] at hkind
    rw [hkind] at this
    simpa [toZcanTransmitData] using this
  have hfdCap : ∀ d ∈ (msgs.filter fun m => isCanFdMessage m).map fun m =>
      toZcanTransmitFdData m ZCAN_TRANSMIT_TYPE_NORMAL (echoDefault st.cfg),
      d.frame.data.length ≤ 64 := by
    intro d hd
    obtain ⟨m, hm, rfl⟩ := List.mem_map.mp hd
    obtain ⟨hmem, hkind⟩ := List.mem_filter.mp hm
    have := hcap m hmem
    rw [hkind] at this
    simpa [toZcanTransmitFdData] using this
  unfold transmitBatchModel
  rw [show ensureOpenE st = .ok () by simp [ensureOpenE, hopen]]
  by_cases hc : (msgs.filter fun m => !isCanFdMessage m).length > 0 <;>
    by_cases hf : (msgs.filter fun m => isCanFdMessage m).length > 0 <;>
      simp [hc, hf, hini, drvTransmit, drvTransmitFD,
        mapM_padClassic_ok _ hcanCap, mapM_padFd_ok _ hfdCap]

/-- C6 witness: a batch of two classic and two FD messages on an open session
makes one classic and one FD bulk-send and returns 4 (each transport call
accepting all frames); the empty batch returns 0 with no call. -/
theorem transmitBatch_spec_witness :
    (transmitBatchModel openSession okOracle
      [{ id := 1, data := [1] }, { id := 2, data := [2] },
       { id := 3, data := [3], brs := some false },
       { id := 4, data := [4], esi := some true }]).2 = .ok 4 ∧
    (transmitBatchModel openSession okOracle
      [{ id := 1, data := [1] }, { id := 2, data := [2] },
       { id := 3, data := [3], brs := some false },
       { id := 4, data := [4], esi := some true }]).1.length = 2 ∧
    transmitBatchModel openSession okOracle [] = ([], .ok 0) := by
  have h := transmitBatch_spec openSession okOracle
    [{ id := 1, data := [1] }, { id := 2, data := [2] },
     { id := 3, data := [3], brs := some false },
     { id := 4, data := [4], esi := some true }] rfl rfl (by decide)
  have h0 := transmitBatch_spec openSession okOracle [] rfl rfl (by decide)
  refine ⟨?_, ?_, h0.trans (by rfl)⟩
  · rw [h]
    rfl
  · rw [h]
    rfl

/-! ### C3: rollback on partial open failure -/

/-- The error of the first failing `setValue` in a configuration sequence. -/
def firstSetFailure (o : LibOracle) : List (String × SetVal) → Option Err
  | [] => none
  | (p, _) :: rest =>
    if o.setValueStatus p ≠ ZCAN_STATUS_OK then some (.zlg "ZCAN_SetValue" none none)
    else firstSetFailure o rest

/-- The error of the first step of `open()` after the device-open that fails,
if any. -/
def firstOpenFailure (cfg : SessionCfg) (o : LibOracle) : Option Err :=
  match firstSetFailure o (openSetEntries cfg) with
  | some e => some e
  | none =>
    if o.initCANH = INVALID_CHANNEL_HANDLE then some (.zlg "ZCAN_InitCAN" none none)
    else if o.startCANStatus ≠ ZCAN_STATUS_OK then some (.zlg "ZCAN_StartCAN" none none)
    else none

/-- A trace holds no `closeDevice` call. -/
def noClose (tr : List Call) : Prop := ∀ c ∈ tr, c.isCloseDevice = false

theorem runSetValues_ok (o : LibOracle) (h : Nat) :
    ∀ entries, firstSetFailure o entries = none →
      runSetValues true o h entries =
        (entries.map fun pv => Call.setValue h pv.1 pv.2, .ok ())
  | [], _ => rfl
  | (p, v) :: rest, hnone => by
      unfold firstSetFailure at hnone
      by_cases hp : o.setValueStatus p ≠ ZCAN_STATUS_OK
      · rw [if_pos hp] at hnone
        exact absurd hnone (by simp)
      · rw [if_neg hp] at hnone
        unfold runSetValues drvSetValue
        simp only [Bool.not_true, if_neg, ite_false, if_neg hp]
        rw [runSetValues_ok o h rest hnone]
        rfl

theorem runSetValues_err (o : LibOracle) (h : Nat) :
    ∀ entries e, firstSetFailure o entries = some e →
      ∃ tr, runSetValues true o h entries = (tr, .error e) ∧ noClose tr
  | (p, v) :: rest, e, hsome => by
      unfold firstSetFailure at hsome
      by_cases hp : o.setValueStatus p ≠ ZCAN_STATUS_OK
      · rw [if_pos hp] at hsome
        refine ⟨[.setValue h p v], ?_, ?_⟩
        · unfold runSetValues drvSetValue
          simp only [Option.some.injEq] at hsome
          simp [hp, hsome]
        · intro c hc
          simp only [List.mem_singleton] at hc
          subst hc
          rfl
      · rw [if_neg hp] at hsome
        obtain ⟨tr, htr, hnc⟩ := runSetValues_err o h rest e hsome
        refine ⟨.setValue h p v :: tr, ?_, ?_⟩
        · unfold runSetValues drvSetValue
          simp [hp, htr]
        · intro c hc
          rcases List.mem_cons.mp hc with rfl | hc'
          · rfl
          · exact hnc c hc'

/-- A trace of calls none of which is `closeDevice` filters to nothing. -/
theorem noClose_filter_nil {tr : List Call} (h : noClose tr) :
    tr.filter Call.isCloseDevice = [] := by
  induction tr with
  | nil => rfl
  | cons c cs ih =>
    rw [List.filter_cons, if_neg (by simp [h c (List.mem_cons_self c cs)])]
    exact ih fun x hx => h x (List.mem_cons_of_mem c hx)

/-- The configuration `setValue` calls of `open()` are never `closeDevice`. -/
theorem noClose_setValue_map (h : Nat) (entries : List (String × SetVal)) :
    noClose (entries.map fun pv => Call.setValue h pv.1 pv.2) := by
  intro c hc
  obtain ⟨pv, _, rfl⟩ := List.mem_map.mp hc
  rfl

/-- C3: if `open()` is called on a Closed session, the device-open succeeds
and any later step (a property set, the channel init, or the channel start)
fails, then `open()` re-raises exactly that first failing step's error, makes
exactly one `closeDevice` transport call, and leaves both handles at their
invalid sentinels, so the session stays closed. -/
theorem open_rollback (cfg0 : SessionCfg) (ini0 : Bool) (o : LibOracle) (e : Err)
    (hdev : o.openDeviceH ≠ INVALID_DEVICE_HANDLE)
    (hfail : firstOpenFailure cfg0 o = some e) :
    ∃ tr,
      openModel { cfg := cfg0, driverInitialized := ini0 } o =
        ({ cfg := cfg0, driverInitialized := true }, tr, .error e) ∧
      (tr.filter Call.isCloseDevice).length = 1 ∧
      isOpen { cfg := cfg0, driverInitialized := true } = false := by
  have hod : drvOpenDevice true o DEVICE_TYPE_CANFDNET_200U_TCP cfg0.deviceIndex =
      ([.openDevice DEVICE_TYPE_CANFDNET_200U_TCP cfg0.deviceIndex], .ok o.openDeviceH) := by
    simp [drvOpenDevice, hdev]
  have hcl : ∀ ch : Nat,
      closeInternal { cfg := cfg0, deviceHandle := o.openDeviceH, channelHandle := ch,
                      driverInitialized := true } o =
        ({ cfg := cfg0, driverInitialized := true }, [.closeDevice o.openDeviceH]) := by
    intro ch
    simp [closeInternal, drvCloseDevice, hdev]
  unfold firstOpenFailure at hfail
  rcases hset : firstSetFailure o (openSetEntries cfg0) with _ | e1
  · rw [hset] at hfail
    have hrun := runSetValues_ok o o.openDeviceH (openSetEntries cfg0) hset
    by_cases hinit : o.initCANH = INVALID_CHANNEL_HANDLE
    · rw [if_pos hinit] at hfail
      have he : e = .zlg "ZCAN_InitCAN" none none := by
        simpa using hfail.symm
      have hic : drvInitCAN true o o.openDeviceH 0 =
          ([.initCAN o.openDeviceH 0], .error (.zlg "ZCAN_InitCAN" none none)) := by
        simp [drvInitCAN, hinit]
      refine ⟨.openDevice DEVICE_TYPE_CANFDNET_200U_TCP cfg0.deviceIndex ::
        (((openSetEntries cfg0).map fun pv => Call.setValue o.openDeviceH pv.1 pv.2) ++
          ([.initCAN o.openDeviceH 0] ++ [.closeDevice o.openDeviceH])), ?_, ?_, rfl⟩
      · unfold openModel
        rw [show isOpen { cfg := cfg0, driverInitialized := ini0 } = false from rfl]
        simp only [Bool.false_eq_true, if_false, hod, hrun, hic, hcl, he]
        simp [List.append_assoc]
      · simp only [List.filter_cons, List.filter_append,
          noClose_filter_nil (noClose_setValue_map o.openDeviceH (openSetEntries cfg0))]
        rfl
    · rw [if_neg hinit] at hfail
      have hstart : o.startCANStatus ≠ ZCAN_STATUS_OK := by
        intro hok
        rw [if_neg (by simp [hok])] at hfail
        exact Option.noConfusion hfail
      rw [if_pos hstart] at hfail
      have he : e = .zlg "ZCAN_StartCAN" none none := by
        simpa using hfail.symm
      have hic : drvInitCAN true o o.openDeviceH 0 =
          ([.initCAN o.openDeviceH 0], .ok o.initCANH) := by
        simp [drvInitCAN, hinit]
      have hsc : drvStartCAN true o o.initCANH =
          ([.startCAN o.initCANH], .error (.zlg "ZCAN_StartCAN" none none)) := by
        simp [drvStartCAN, hstart]
      refine ⟨.openDevice DEVICE_TYPE_CANFDNET_200U_TCP cfg0.deviceIndex ::
        (((openSetEntries cfg0).map fun pv => Call.setValue o.openDeviceH pv.1 pv.2) ++
          ([.initCAN o.openDeviceH 0] ++
            ([.startCAN o.initCANH] ++ [.closeDevice o.openDeviceH]))), ?_, ?_, rfl⟩
      · unfold openModel
        rw [show isOpen { cfg := cfg0, driverInitialized := ini0 } = false from rfl]
        simp only [Bool.false_eq_true, if_false, hod, hrun, hic, hsc, hcl, he]
        simp [List.append_assoc]
      · simp only [List.filter_cons, List.filter_append,
          noClose_filter_nil (noClose_setValue_map o.openDeviceH (openSetEntries cfg0))]
        rfl
  · rw [hset] at hfail
    have he : e1 = e := by simpa using hfail
    subst he
    obtain ⟨tr2, htr2, hnc⟩ := runSetValues_err o o.openDeviceH (openSetEntries cfg0) e1 hset
    refine ⟨.openDevice DEVICE_TYPE_CANFDNET_200U_TCP cfg0.deviceIndex ::
      (tr2 ++ [.closeDevice o.openDeviceH]), ?_, ?_, rfl⟩
    · unfold openModel
      rw [show isOpen { cfg := cfg0, driverInitialized := ini0 } = false from rfl]
      simp only [Bool.false_eq_true, if_false, hod, htr2, hcl]
      simp [List.append_assoc]
    · simp only [List.filter_cons, List.filter_append, noClose_filter_nil hnc]
      rfl

/-- A transport whose `startCAN` fails (status 0). -/
def failStartOracle : LibOracle := { okOracle with startCANStatus := 0 }

/-- C3 witness: simulated channel-start failure during `open()` on a fresh
session rolls back with exactly one `closeDevice` call, leaves the session
closed, and re-raises the start error. -/
theorem open_rollback_witness :
    firstOpenFailure closedSession.cfg failStartOracle =
        some (.zlg "ZCAN_StartCAN" none none) ∧
    ∃ tr,
      openModel { cfg := closedSession.cfg, driverInitialized := false } failStartOracle =
        ({ cfg := closedSession.cfg, driverInitialized := true }, tr,
          .error (.zlg "ZCAN_StartCAN" none none)) ∧
      (tr.filter Call.isCloseDevice).length = 1 ∧
      isOpen { cfg := closedSession.cfg, driverInitialized := true } = false :=
  ⟨rfl, open_rollback closedSession.cfg false failStartOracle
    (.zlg "ZCAN_StartCAN" none none) (by decide) rfl⟩

/-! ### C10: the two handles are always both valid or both invalid -/

/-- The session-handle invariant: both handles are the invalid sentinels or
both are valid. -/
def HandlesInv (st : SessionSt) : Prop :=
  (st.deviceHandle = INVALID_DEVICE_HANDLE ∧ st.channelHandle = INVALID_CHANNEL_HANDLE) ∨
  (st.deviceHandle ≠ INVALID_DEVICE_HANDLE ∧ st.channelHandle ≠ INVALID_CHANNEL_HANDLE)

theorem handles_invariant_open (st : SessionSt) (o : LibOracle) (h : HandlesInv st) :
    HandlesInv (openModel st o).1 := by
  unfold openModel
  by_cases ho : isOpen st = true
  · simpa [ho] using h
  · have ho' : isOpen st = false := by simpa using ho
    simp only [ho', Bool.false_eq_true, if_false]
    by_cases hd : o.openDeviceH = INVALID_DEVICE_HANDLE
    · simpa [drvOpenDevice, hd, HandlesInv] using h
    · rcases hrs : runSetValues true o o.openDeviceH (openSetEntries st.cfg) with ⟨tr2, r2⟩
      cases r2 with
      | error e =>
        simp [drvOpenDevice, hd, hrs, closeInternal, HandlesInv]
      | ok u =>
        by_cases hi : o.initCANH = INVALID_CHANNEL_HANDLE
        · simp [drvOpenDevice, hd, hrs, drvInitCAN, hi, closeInternal, HandlesInv]
        · by_cases hsx : o.startCANStatus = ZCAN_STATUS_OK
          · have hod : drvOpenDevice true o DEVICE_TYPE_CANFDNET_200U_TCP st.cfg.deviceIndex =
                ([.openDevice DEVICE_TYPE_CANFDNET_200U_TCP st.cfg.deviceIndex],
                  .ok o.openDeviceH) := by
              simp [drvOpenDevice, hd]
            have hic : drvInitCAN true o o.openDeviceH 0 =
                ([.initCAN o.openDeviceH 0], .ok o.initCANH) := by
              simp [drvInitCAN, hi]
            have hsc : drvStartCAN true o o.initCANH = ([.startCAN o.initCANH], .ok ()) := by
              simp [drvStartCAN, hsx]
            simp only [hod, hrs, hic, hsc]
            exact Or.inr ⟨hd, hi⟩
          · simp [drvOpenDevice, hd, hrs, drvInitCAN, hi, drvStartCAN, hsx,
              closeInternal, HandlesInv]

theorem handles_invariant_close (st : SessionSt) (o : LibOracle) (h : HandlesInv st) :
    HandlesInv (closeModel st o).1 := by
  unfold closeModel
  by_cases ho : isOpen st = true
  · have hdev : st.deviceHandle ≠ INVALID_DEVICE_HANDLE := by
      simp only [isOpen, Bool.and_eq_true, bne_iff_ne, ne_eq] at ho
      exact ho.1
    simp [ho, closeInternal, hdev, HandlesInv]
  · have ho' : isOpen st = false := by simpa using ho
    simpa [ho'] using h

/-- C10: every public operation of the session — `open`, `close`, and all the
guarded operations, whether they return normally or throw — leaves the
session with `deviceHandle` and `channelHandle` either both at their invalid
sentinels or both valid, and `isOpen()` is true exactly when both are valid:
the session never holds a device handle without a channel handle. -/
theorem session_handles_invariant (st : SessionSt) (o : LibOracle) (op : Op)
    (h : HandlesInv st) :
    HandlesInv (step st o op).1 ∧
    (isOpen (step st o op).1 = true ↔
      ((step st o op).1.deviceHandle ≠ INVALID_DEVICE_HANDLE ∧
       (step st o op).1.channelHandle ≠ INVALID_CHANNEL_HANDLE)) := by
  have hiso : ∀ s : SessionSt, isOpen s = true ↔
      (s.deviceHandle ≠ INVALID_DEVICE_HANDLE ∧ s.channelHandle ≠ INVALID_CHANNEL_HANDLE) := by
    intro s
    simp [isOpen]
  refine ⟨?_, hiso _⟩
  cases op
  case open' => exact handles_invariant_open st o h
  case close => exact handles_invariant_close st o h
  all_goals exact h

/-- C10 witness: a successful `open()` on a fresh session preserves the
invariant (both handles valid afterwards). -/
theorem session_handles_invariant_witness :
    HandlesInv (step closedSession okOracle .open').1 ∧
    (isOpen (step closedSession okOracle .open').1 = true ↔
      ((step closedSession okOracle .open').1.deviceHandle ≠ INVALID_DEVICE_HANDLE ∧
       (step closedSession okOracle .open').1.channelHandle ≠ INVALID_CHANNEL_HANDLE)) :=
  session_handles_invariant closedSession okOracle .open' (Or.inl ⟨rfl, rfl⟩)

end ZlgCan
